/-
Formal model of the TAC evaluation harness (task selection, Mersenne-Twister
driven sampling, per-task evaluation orchestration, and score aggregation),
embedded from the Python sources:
  src/green_agent/evaluation/task_selector.py
  src/green_agent/evaluation/evaluator.py
  src/utils/docker_manager.py
  src/utils/a2a_client.py
Pure functions are translated directly; the process-global state of Python's
`random` module is made explicit as a value of type `MTState` threaded through
the selection functions; fallible operations (Docker, HTTP, filesystem) are
modelled by an environment record giving each operation's outcome.
-/
import Mathlib

/-! ### Task catalog (task_selector.py, ALL_TASKS_BY_CATEGORY) -/

def tasks_admin : List String := ["admin-arrange-meeting-rooms", "admin-ask-for-meeting-feedback", "admin-ask-for-upgrade-reimbursement", "admin-check-employees-budget-and-reply", "admin-check-employees-budget-and-reply-2", "admin-check-employees-budget-and-reply-and-record", "admin-collect-requests-and-compute-total-price", "admin-employee-info-reconciliation", "admin-get-best-vendor-quote", "admin-make-spreadsheet", "admin-mass-forms-filling", "admin-read-survey-and-summarise", "admin-remove-pages-pdf", "admin-translate-sales-chat", "admin-watch-video"]

def tasks_bm : List String := ["bm-classify-nationality"]

def tasks_ds : List String := ["ds-answer-numerical-data-question", "ds-answer-spreadsheet-questions", "ds-calculate-spreadsheet-stats", "ds-coffee-shop-database-management", "ds-find-meeting-spreadsheet", "ds-fix-table-values-and-missing-answers", "ds-format-excel-sheets", "ds-janusgraph-exercise", "ds-merge-multiple-sheets", "ds-organise-report-sus-data", "ds-predictive-modeling", "ds-sql-exercise", "ds-stock-analysis-slides", "ds-visualize-data-in-pie-and-bar-chart"]

def tasks_finance : List String := ["finance-apply-tax-credit", "finance-budget-variance", "finance-check-attendance-payroll", "finance-create-10k-income-report", "finance-expense-validation", "finance-find-signatories", "finance-invoice-matching", "finance-nonqualified-bill-ask-for-reimburse", "finance-qualified-bill-ask-for-reimburse", "finance-r-d-activities", "finance-revenue-reconciliation", "finance-substantial-presence-test"]

def tasks_hr : List String := ["hr-analyze-outing-bills", "hr-check-attendance-multiple-days", "hr-check-attendance-multiple-days-department", "hr-check-attendance-multiple-days-department-with-chat", "hr-check-attendance-one-day", "hr-check-for-invalid-passwords-and-ask-for-valid-passwords", "hr-collect-feedbacks", "hr-collect-multiple-valid-passwords", "hr-create-career-ladder", "hr-create-employee-manual", "hr-delete-and-insert-user", "hr-get-valid-password", "hr-green-card-consultation", "hr-internal-tooling-slides", "hr-make-slides-introduce-leadership", "hr-mass-survey", "hr-massive-resume-screening", "hr-new-grad-job-description", "hr-new-grad-job-description-2", "hr-new-grad-job-description-3", "hr-organize-talent-info", "hr-pick-interviewer-1", "hr-pick-interviewer-2", "hr-pick-interviewer-3", "hr-populate-salary-increase-memo", "hr-resume-categorization", "hr-resume-screening", "hr-salary-analysis", "hr-transfer-group"]

def tasks_ml : List String := ["ml-generate-gradcam", "ml-grade-exam"]

def tasks_pm : List String := ["pm-add-new-moderator", "pm-ask-for-issue-and-create-in-gitlab", "pm-ask-issue-assignee-for-issue-status-and-update-in-plane", "pm-assign-issues", "pm-change-channel-ownership", "pm-check-backlog-update-issues", "pm-copy-plane-issues-to-gitlab", "pm-create-channel-message", "pm-create-channel-message-medium", "pm-create-channel-new-leader", "pm-create-plane-issue", "pm-create-teammate-channel-from-spreadsheet", "pm-distribute-information", "pm-monitor-new-bug-issues", "pm-monthly-attendance-slides", "pm-plan-personnel-for-new-project", "pm-prepare-meeting-with-customers", "pm-present-engineer-group-members", "pm-present-gitlab-info-as-ppt", "pm-projects-analytics", "pm-schedule-meeting-1", "pm-schedule-meeting-2", "pm-send-hello-message", "pm-send-notification-to-corresponding-user", "pm-update-gitlab-issue-from-plane-status", "pm-update-plane-issue-from-gitlab-status", "pm-update-project-milestones", "pm-update-sprint-cycles"]

def tasks_qa : List String := ["qa-escalate-emergency", "qa-update-issue-status-according-to-colleagues"]

def tasks_research : List String := ["research-answer-questions-on-paper", "research-reproduce-figures"]

def tasks_sde : List String := ["sde-add-all-repos-to-docs", "sde-add-one-gitlab-pipeline", "sde-add-wiki-page", "sde-change-branch-policy", "sde-change-license-easy", "sde-change-license-hard", "sde-check-and-run-unit-test", "sde-check-high-priority-issue", "sde-close-all-gitlab-issues", "sde-close-all-issue-on-all-project-under-tac-workspace", "sde-close-all-prs", "sde-close-an-issue", "sde-collect-open-issues", "sde-copilot-arena-server-easy-add-suffix", "sde-copilot-arena-server-new-endpoint", "sde-copilot-arena-server-setup", "sde-copy-issues-to-plane", "sde-copy-table-from-pdf-to-xlsx", "sde-create-commit-table-for-all-gitlab-users", "sde-create-new-characters", "sde-create-new-gitlab-project-logo", "sde-create-new-release", "sde-create-new-repo", "sde-create-sqlite-database", "sde-debug-crashed-server", "sde-delete-all-project-under-plane", "sde-delete-all-repos", "sde-delete-stale-branch", "sde-dependency-change-1", "sde-find-answer-in-codebase-1", "sde-find-answer-in-codebase-2", "sde-find-answer-in-codebase-3", "sde-find-api", "sde-fix-factual-mistake", "sde-fix-rising-wave-datatype", "sde-implement-buffer-pool-manager-bustub", "sde-implement-covering-index-in-janusgraph", "sde-implement-hyperloglog", "sde-implement-raft-in-go", "sde-install-go", "sde-install-openjdk", "sde-issue-label-management", "sde-migrate-package-manager", "sde-milestone-meeting", "sde-move-bustub-wiki", "sde-move-page-to-cloud", "sde-pitch-idea-to-manager", "sde-reply-community-issue-by-asking-npc", "sde-reply-community-issue-with-fixed-reply", "sde-repo_profile_pic", "sde-report-agent-repos", "sde-report-unit-test-coverage-to-plane", "sde-run-all-unit-test", "sde-run-janusgraph", "sde-run-linter-on-openhands", "sde-run-rising-wave-locally", "sde-sotopia-create-agent", "sde-sotopia-create-agent-wo-repo", "sde-sotopia-dev-container", "sde-sotopia-update-ci", "sde-summarize-recent-issues", "sde-sync-from-origin-repo", "sde-troubleshoot-dev-setup", "sde-update-dev-document", "sde-update-issue-status-on-plane", "sde-update-readme", "sde-write-a-unit-test-for-append_file-function", "sde-write-a-unit-test-for-scroll_down-function", "sde-write-a-unit-test-for-search_file-function"]

def tasks_example : List String := ["example"]


/-- `ALL_TASKS_BY_CATEGORY`: the category → task-list table, in source order. -/
def ALL_TASKS_BY_CATEGORY : List (String × List String) :=
  [("admin", tasks_admin), ("bm", tasks_bm), ("ds", tasks_ds),
   ("finance", tasks_finance), ("hr", tasks_hr), ("ml", tasks_ml),
   ("pm", tasks_pm), ("qa", tasks_qa), ("research", tasks_research),
   ("sde", tasks_sde), ("example", tasks_example)]

/-- `ALL_TASKS`: flat list built by extending over the category values. -/
def ALL_TASKS : List String :=
  (ALL_TASKS_BY_CATEGORY.map Prod.snd).foldl (fun acc l => acc ++ l) []

/-- `TASK_SUBSETS`: the curated subset table, in source order. -/
def TASK_SUBSETS : List (String × List String) :=
  [("beginner",
    ["pm-send-hello-message", "sde-create-new-repo", "hr-check-attendance-one-day",
     "finance-qualified-bill-ask-for-reimburse"]),
   ("intermediate",
    ["pm-schedule-meeting-2", "sde-run-janusgraph", "sde-check-and-run-unit-test",
     "hr-new-grad-job-description-3", "ds-janusgraph-exercise"]),
   ("advanced",
    ["sde-implement-raft-in-go", "sde-debug-crashed-server", "ds-predictive-modeling",
     "research-answer-questions-on-paper"]),
   ("coding_focused",
    ["sde-create-new-repo", "sde-run-janusgraph", "sde-check-and-run-unit-test",
     "sde-implement-raft-in-go", "sde-debug-crashed-server", "ds-janusgraph-exercise"]),
   ("communication_focused",
    ["pm-send-hello-message", "pm-schedule-meeting-2", "hr-check-attendance-one-day",
     "qa-escalate-emergency"]),
   ("multi_service",
    ["pm-copy-plane-issues-to-gitlab", "pm-update-gitlab-issue-from-plane-status",
     "sde-report-unit-test-coverage-to-plane"]),
   ("all_admin", tasks_admin), ("all_bm", tasks_bm), ("all_ds", tasks_ds),
   ("all_finance", tasks_finance), ("all_hr", tasks_hr), ("all_ml", tasks_ml),
   ("all_pm", tasks_pm), ("all_qa", tasks_qa), ("all_research", tasks_research),
   ("all_sde", tasks_sde), ("all", ALL_TASKS)]

/-- Dict lookup `TASK_SUBSETS[name]` as association-list search. -/
def subsetsLookup (name : String) : Option (List String) :=
  (TASK_SUBSETS.find? (fun p => p.1 == name)).map Prod.snd

/-- `get_task_image_name`: task name → Docker image reference. -/
def get_task_image_name (task_name : String) (version : String) : String :=
  "ghcr.io/theagentcompany/" ++ task_name ++ "-image:" ++ version

/-! ### Mersenne Twister (MT19937), as implemented by CPython's `_random`

The 624-word generator state is packed into one natural number, 32 bits per
word, little-endian: word `i` occupies bits `[32*i, 32*i+32)`.  This models the
process-global state of Python's `random` module, which `TaskSelector` seeds in
its constructor (`random.seed`) and consumes in `select_tasks`
(`random.sample`). -/

def mask32 : Nat := 0xffffffff

/-- Read 32-bit word `i` of a packed state. -/
def mtGet (s i : Nat) : Nat := (s >>> (32 * i)) &&& mask32

/-- Overwrite 32-bit word `i` of a packed state with `v`. -/
def mtSet (s i v : Nat) : Nat :=
  s + ((v &&& mask32) <<< (32 * i)) - (mtGet s i <<< (32 * i))

/-- The loop of `init_genrand`: `mt[i] = (1812433253 * (mt[i-1] ^ (mt[i-1] >> 30)) + i)`. -/
def initLoop : Nat → Nat → Nat → Nat
  | s, _, 0 => s
  | s, i, n + 1 =>
    let prev := mtGet s (i - 1)
    initLoop (mtSet s i ((1812433253 * (prev ^^^ (prev >>> 30)) + i) &&& mask32)) (i + 1) n

/-- `init_genrand(s)` from CPython's `_randommodule.c`. -/
def init_genrand (seed : Nat) : Nat :=
  initLoop (mtSet 0 0 (seed &&& mask32)) 1 623

/-- One iteration of the first `init_by_array` loop on `(mt, i, j)`:
`mt[i] = (mt[i] ^ ((mt[i-1] ^ (mt[i-1] >> 30)) * 1664525)) + key[j] + j`, with
the index wraps `mt[0] = mt[623]; i = 1` and `j = 0`. -/
def ibaStep1 (key : List Nat) : Nat × Nat × Nat → Nat × Nat × Nat
  | (s, i, j) =>
    let prev := mtGet s (i - 1)
    let v := ((mtGet s i ^^^ ((prev ^^^ (prev >>> 30)) * 1664525 &&& mask32)) +
              key.getD j 0 + j) &&& mask32
    let s1 := mtSet s i v
    let i1 := i + 1
    let p := if i1 ≥ 624 then (mtSet s1 0 (mtGet s1 623), 1) else (s1, i1)
    let j1 := if j + 1 ≥ key.length then 0 else j + 1
    (p.1, p.2, j1)

/-- One iteration of the second `init_by_array` loop on `(mt, i)`:
`mt[i] = (mt[i] ^ ((mt[i-1] ^ (mt[i-1] >> 30)) * 1566083941)) - i`;
subtraction is modulo `2^32`, written `+ 2^32 - i` on naturals. -/
def ibaStep2 : Nat × Nat → Nat × Nat
  | (s, i) =>
    let prev := mtGet s (i - 1)
    let v := ((mtGet s i ^^^ ((prev ^^^ (prev >>> 30)) * 1566083941 &&& mask32)) +
              4294967296 - i) &&& mask32
    let s1 := mtSet s i v
    let i1 := i + 1
    if i1 ≥ 624 then (mtSet s1 0 (mtGet s1 623), 1) else (s1, i1)

/-- `init_by_array(key)` from CPython's `_randommodule.c`: the first loop runs
`max(624, len(key))` times from `(i, j) = (1, 0)`, the second 623 times from
where the first stopped. -/
def init_by_array (key : List Nat) : Nat :=
  let t := (ibaStep1 key)^[max 624 key.length] (init_genrand 19650218, 1, 0)
  let u := ibaStep2^[623] (t.1, t.2.1)
  mtSet u.1 0 0x80000000

/-- Python `int.bit_length`, computed structurally (the first argument is
fuel; `n` halvings always suffice for `n`). -/
def bitLengthAux : Nat → Nat → Nat
  | 0, _ => 0
  | fuel + 1, n => if n = 0 then 0 else bitLengthAux fuel (n / 2) + 1

def bitLength (n : Nat) : Nat := bitLengthAux n n

/-- `w` 32-bit little-endian chunks of a natural number (CPython's
`random_seed` fills `keymax = (bits - 1) / 32 + 1` words). -/
def mtKeyChunks : Nat → Nat → List Nat
  | 0, _ => []
  | w + 1, n => (n % 4294967296) :: mtKeyChunks w (n / 4294967296)

/-- The key array CPython's `random.seed(n)` passes to `init_by_array` for an
integer seed: the 32-bit chunks of `|n|` (a single zero chunk for `n = 0`). -/
def mtKey (n : Nat) : List Nat :=
  if n = 0 then [0] else mtKeyChunks ((bitLength n - 1) / 32 + 1) n

/-- The generator state of Python's global `random` module: packed word array
plus the output index `mti`. -/
structure MTState where
  mt : Nat
  mti : Nat
deriving Repr, DecidableEq

/-- `random.seed(seed)`: seed via `init_by_array` on the chunks of `|seed|`;
`mti = 624` forces a twist before the first output. -/
def seedState (seed : Int) : MTState :=
  ⟨init_by_array (mtKey seed.natAbs), 624⟩

/-- One full regeneration sweep of the 624-word state. -/
def twistLoop : Nat → Nat → Nat → Nat
  | s, _, 0 => s
  | s, i, n + 1 =>
    let y := (mtGet s i &&& 0x80000000) + (mtGet s ((i + 1) % 624) &&& 0x7fffffff)
    let v := mtGet s ((i + 397) % 624) ^^^ (y >>> 1) ^^^
             (if y &&& 1 = 1 then 0x9908b0df else 0)
    twistLoop (mtSet s i v) (i + 1) n

def twist (s : Nat) : Nat := twistLoop s 0 624

/-- `genrand_uint32`: next 32-bit output (tempered), with the twist applied
when the 624 buffered words are exhausted. -/
def genrand_uint32 : MTState → Nat × MTState
  | ⟨mt, mti⟩ =>
    let p := if mti ≥ 624 then (twist mt, 0) else (mt, mti)
    let y := mtGet p.1 p.2
    let y1 := y ^^^ (y >>> 11)
    let y2 := y1 ^^^ ((y1 <<< 7) &&& 0x9d2c5680)
    let y3 := y2 ^^^ ((y2 <<< 15) &&& 0xefc60000)
    (y3 ^^^ (y3 >>> 18), ⟨p.1, p.2 + 1⟩)

/-- Multi-word accumulation loop of `getrandbits` for `k > 32`. -/
def getrandbitsLoop (g : MTState) (k shift acc : Nat) : Nat × MTState :=
  if k = 0 then (acc, g)
  else
    let p := genrand_uint32 g
    let r := if k < 32 then p.1 >>> (32 - k) else p.1
    getrandbitsLoop p.2 (k - 32) (shift + 32) (acc + (r <<< shift))
termination_by k
decreasing_by simp_all; omega

/-- `random.getrandbits(k)`: for `k ≤ 32` the top `k` bits of one output word,
otherwise 32-bit chunks accumulated little-endian. -/
def getrandbits (g : MTState) (k : Nat) : Nat × MTState :=
  if k ≤ 32 then
    let p := genrand_uint32 g
    (p.1 >>> (32 - k), p.2)
  else getrandbitsLoop g k 0 0

/-- Rejection loop of `Random._randbelow_with_getrandbits`: draw `k`-bit values
until one is `< n`.  The loop is almost-surely terminating but not structurally
so; it is given fuel, with `none` for exhaustion (Python would keep looping). -/
def randbelowLoop (n k : Nat) : Nat → MTState → Option (Nat × MTState)
  | 0, _ => none
  | fuel + 1, g =>
    let p := getrandbits g k
    if p.1 < n then some (p.1, p.2) else randbelowLoop n k fuel p.2

/-- `Random._randbelow_with_getrandbits(n)`. -/
def randbelow (fuel : Nat) (g : MTState) (n : Nat) : Option (Nat × MTState) :=
  randbelowLoop n (bitLength n) fuel g

/-- Pool-based branch of `random.sample` (population size within `setsize`):
`j = randbelow(n-i); result[i] = pool[j]; pool[j] = pool[n-i-1]`.
`m` is `n - i`; picked elements are accumulated in reverse. -/
def poolSampleLoop (fuel : Nat) : Nat → List String → Nat → MTState → List String →
    Option (List String × MTState)
  | 0, _, _, g, acc => some (acc.reverse, g)
  | k + 1, pool, m, g, acc =>
    match randbelow fuel g m with
    | none => none
    | some (j, g1) =>
      let picked := pool.getD j ""
      poolSampleLoop fuel k (pool.set j (pool.getD (m - 1) "")) (m - 1) g1 (picked :: acc)

/-- The inner `while j in selected` re-draw loop of the selection-set branch. -/
def setSamplePick (rejFuel n : Nat) (selected : List Nat) : Nat → MTState →
    Option (Nat × MTState)
  | 0, _ => none
  | fuel + 1, g =>
    match randbelow rejFuel g n with
    | none => none
    | some (j, g1) =>
      if selected.contains j then setSamplePick rejFuel n selected fuel g1
      else some (j, g1)

/-- Selection-set branch of `random.sample` (large population): draw indices,
re-drawing while the index was already selected.  Returns the picked indices in
pick order. -/
def setSampleLoop (fuel rejFuel : Nat) (n : Nat) : Nat → List Nat → MTState →
    Option (List Nat × MTState)
  | 0, selected, g => some (selected.reverse, g)
  | k + 1, selected, g =>
    match setSamplePick rejFuel n selected rejFuel g with
    | none => none
    | some (j, g1) => setSampleLoop fuel rejFuel n k (j :: selected) g1

/-- `random.sample(population, k)`.  `setsize` uses `4 ** ceil(log(k*3, 4))`,
modelled with the exact integer ceiling logarithm `Nat.clog 4`.  A `k` outside
`[0, n]` raises `ValueError` in Python, modelled as `none`. -/
def sample (fuel : Nat) (population : List String) (k : Int) (g : MTState) :
    Option (List String × MTState) :=
  let n := population.length
  if ¬ (0 ≤ k ∧ k ≤ (n : Int)) then none
  else
    let kn := k.toNat
    let setsize := 21 + (if kn > 5 then 4 ^ (Nat.clog 4 (kn * 3)) else 0)
    if n ≤ setsize then poolSampleLoop fuel kn population n g []
    else
      match setSampleLoop fuel fuel n kn [] g with
      | none => none
      | some (idxs, g1) => some (idxs.map (fun j => population.getD j ""), g1)

/-! ### TaskSelector (task_selector.py) -/

/-- `TaskSelector.__init__` fields.  The constructor's side effect
`random.seed(random_seed)` is modelled separately by `TaskSelector.initRNG`. -/
structure TaskSelector where
  subset : Option String
  task_ids : Option (List Int)
  task_names : Option (List String)
  max_tasks : Option Int
  random_seed : Option Int
deriving Repr, DecidableEq

/-- Python truthiness of an optional list (`None` and `[]` are falsy). -/
def optTruthyList (o : Option (List String)) : Bool :=
  match o with
  | some l => !l.isEmpty
  | none => false

/-- Python truthiness of an optional string (`None` and `""` are falsy). -/
def optTruthyStr (o : Option String) : Bool :=
  match o with
  | some s => !s.isEmpty
  | none => false

/-- Python truthiness of an optional integer (`None` and `0` are falsy). -/
def optTruthyInt (o : Option Int) : Bool :=
  match o with
  | some n => n != 0
  | none => false

/-- The `if/elif/else` cascade at the head of `select_tasks`: explicit
task names if truthy, else a named subset present in `TASK_SUBSETS`,
else `TASK_SUBSETS.get("intermediate", [])`. -/
def TaskSelector.resolve_tasks (sel : TaskSelector) : List String :=
  if optTruthyList sel.task_names then sel.task_names.getD []
  else if optTruthyStr sel.subset && (subsetsLookup (sel.subset.getD "")).isSome then
    (subsetsLookup (sel.subset.getD "")).getD []
  else (subsetsLookup "intermediate").getD []

/-- `random.seed(self.random_seed)` performed by the constructor when the seed
is not `None`; `g` is the prior global generator state. -/
def TaskSelector.initRNG (sel : TaskSelector) (g : MTState) : MTState :=
  match sel.random_seed with
  | some n => seedState n
  | none => g

/-- `TaskSelector.select_tasks`, with the global `random` state `g` explicit:
resolve the candidate list, then down-sample via `random.sample` when
`max_tasks` is truthy and smaller than the list. -/
def TaskSelector.select_tasks (fuel : Nat) (sel : TaskSelector) (g : MTState) :
    Option (List String × MTState) :=
  let tasks := sel.resolve_tasks
  if optTruthyInt sel.max_tasks && ((tasks.length : Int) > sel.max_tasks.getD 0) then
    sample fuel tasks (sel.max_tasks.getD 0) g
  else some (tasks, g)

/-- `TaskSelector.get_task_images`: re-runs `select_tasks` (consuming the
generator again) and maps each task to its image name. -/
def TaskSelector.get_task_images (fuel : Nat) (sel : TaskSelector) (g : MTState) :
    Option (List String × MTState) :=
  match sel.select_tasks fuel g with
  | none => none
  | some (tasks, g1) => some (tasks.map (fun t => get_task_image_name t "1.0.0"), g1)

/-! ### Evaluation orchestrator (evaluator.py, docker_manager.py, a2a_client.py)

Awaited operations that touch Docker, HTTP or the filesystem are modelled by
an `Outcome`: either the value the call returned, or the message of the
exception it raised. -/

inductive Outcome (α : Type) where
  | ok (val : α)
  | exn (msg : String)
deriving Repr, DecidableEq

/-- A `{"total": t, "result": r}` score object (a checkpoint or `final_score`). -/
structure ScorePair where
  result : Int
  total : Int
deriving Repr, DecidableEq

/-- The evaluation-result dictionary: the mock results built inline in
`evaluate_task` and the JSON parsed from the container by `run_evaluation`. -/
structure EvalResult where
  checkpoints : List ScorePair
  final_score : ScorePair
  task_name : String
  error : Option String
  note : Option String
deriving Repr, DecidableEq

/-- The per-task `task_results` dictionary returned by `evaluate_task`.
`Option` fields model keys that are present only on some paths; the timing
fields (`start_time`, `elapsed_time`) are omitted as pure wall-clock data. -/
structure TaskResult where
  task_name : String
  task_image : String
  status : String
  evaluation : Option EvalResult
  error : Option String
  warning : Option String
deriving Repr, DecidableEq

/-- Content of a trajectory file in the run's output directory: either a
byte-for-byte copy of a precomputed file (`shutil.copy`), or the JSON the
`A2ATrajectoryCollector` serialises from recorded (role, text) messages. -/
inductive FileData where
  | copied (content : String)
  | recorded (task : String) (messages : List (String × String))
deriving Repr, DecidableEq

/-- Observable side effects of one `evaluate_task` call that the claims talk
about: whether `send_message_to_agent` was invoked, and what trajectory file
was written. -/
structure Effects where
  send_called : Bool
  trajectory_write : Option (String × FileData)
deriving Repr, DecidableEq

/-- Outcomes of the awaited fallible operations during one `evaluate_task`
call, in program order. -/
structure TaskEnv where
  /-- `docker_manager.pull_image`: image availability, or an exception. -/
  pull_image : Outcome Bool
  /-- the `task_instructions.json` cache (empty when the file is absent). -/
  precomputed_instructions : List (String × String)
  /-- `docker_manager.get_task_instruction` on a cache miss. -/
  docker_instruction : Outcome String
  /-- content of `TRAJECTORIES_DIR/<task>.json` when that file exists. -/
  precomputed_trajectory : Option String
  /-- `shutil.copy` of the precomputed trajectory. -/
  copy_file : Outcome Unit
  /-- `send_message_to_agent` followed by `_extract_message_text` (which
  catches internally): the extracted reply text, or a transport exception. -/
  send_message : Outcome String
  /-- `trajectory_collector.save`. -/
  save_trajectory : Outcome Unit
  /-- the `SKIP_DOCKER_EVAL` environment variable. -/
  skip_docker_eval : Bool
  /-- `docker_manager.run_evaluation`: parsed result JSON, `None`, or an
  exception. -/
  run_evaluation : Outcome (Option EvalResult)

/-- The inline mock evaluation dictionaries of `evaluate_task`:
`{"checkpoints": [{"total": 1, "result": 0}], "final_score": {...}, "error": e}`. -/
def mockEval (task_name err : String) : EvalResult :=
  ⟨[⟨0, 1⟩], ⟨0, 1⟩, task_name, some err, none⟩

/-- `traj_<task>.json` inside the run's output directory. -/
def trajFilePath (output_dir task_name : String) : String :=
  output_dir ++ "/traj_" ++ task_name ++ ".json"

/-- Steps 2–6 of `evaluate_task` (the body of its outer `try`), producing
either the fields of a completed result or the message of an uncaught
exception, together with the observable effects. -/
def evaluateTaskBody (task_name : String) (env : TaskEnv) (output_dir : String) :
    Except String EvalResult × Effects :=
  let task_instruction :=
    match (env.precomputed_instructions.find? (fun p => p.1 == task_name)).map Prod.snd with
    | some ins => ins
    | none =>
      match env.docker_instruction with
      | .ok s => s
      | .exn _ => "Complete the task for " ++ task_name ++ ". This is a mock instruction."
  let step3 : Except String Effects × Effects :=
    match env.precomputed_trajectory with
    | some content =>
      match env.copy_file with
      | .ok _ =>
        let eff : Effects := ⟨false, some (trajFilePath output_dir task_name, .copied content)⟩
        (.ok eff, eff)
      | .exn e => (.error e, ⟨false, none⟩)
    | none =>
      match env.send_message with
      | .exn e => (.error e, ⟨true, none⟩)
      | .ok reply =>
        match env.save_trajectory with
        | .exn e => (.error e, ⟨true, none⟩)
        | .ok _ =>
          let eff : Effects := ⟨true, some (trajFilePath output_dir task_name,
            .recorded task_name [("user", task_instruction), ("agent", reply)])⟩
          (.ok eff, eff)
  match step3.1 with
  | .error e => (.error e, step3.2)
  | .ok eff =>
    let evaluation_result :=
      if env.skip_docker_eval then
        ⟨[⟨0, 1⟩], ⟨0, 1⟩, task_name, none, some "Docker evaluation skipped for speed"⟩
      else
        match env.run_evaluation with
        | .ok (some r) => r
        | .ok none => mockEval task_name "Docker evaluation returned no results"
        | .exn e => mockEval task_name ("Docker evaluation failed: " ++ e)
    (.ok evaluation_result, eff)

/-- `TACEvaluator.evaluate_task`.  Step 1 (`pull_image`) has its own inner
`try/except` with early mock returns; every other exception inside the outer
`try` yields a `"failed"` record carrying the error string. -/
def evaluate_task (task_name task_image : String) (env : TaskEnv) (output_dir : String) :
    TaskResult × Effects :=
  match env.pull_image with
  | .ok false =>
    ({ task_name := task_name, task_image := task_image, status := "completed",
       evaluation := some (mockEval task_name "Docker not available - evaluation skipped"),
       error := none, warning := some "Docker not available - used mock evaluation" },
     ⟨false, none⟩)
  | .exn e =>
    ({ task_name := task_name, task_image := task_image, status := "completed",
       evaluation := some (mockEval task_name ("Docker error: " ++ e)),
       error := none, warning := some "Docker error - used mock evaluation" },
     ⟨false, none⟩)
  | .ok true =>
    match evaluateTaskBody task_name env output_dir with
    | (.ok evaluation_result, eff) =>
      ({ task_name := task_name, task_image := task_image, status := "completed",
         evaluation := some evaluation_result, error := none, warning := none }, eff)
    | (.error e, eff) =>
      ({ task_name := task_name, task_image := task_image, status := "failed",
         evaluation := none, error := some e, warning := none }, eff)

/-- One polling attempt of `wait_agent_ready`: the HTTP status code of the GET
on `/.well-known/agent-card.json`, or the exception it raised. -/
def attemptSucceeds (o : Outcome Nat) : Bool :=
  match o with
  | .ok code => code == 200
  | .exn _ => false

/-- The polling loop of `wait_agent_ready` from attempt `i`: return `True` on
a 200 response, otherwise try again; `False` once attempts are exhausted
(responses and exceptions alike are swallowed, never re-raised). -/
def waitReadyFrom (attempt : Nat → Outcome Nat) : Nat → Nat → Bool
  | _, 0 => false
  | i, n + 1 => if attemptSucceeds (attempt i) then true else waitReadyFrom attempt (i + 1) n

/-- `wait_agent_ready(agent_url, max_attempts=30, ...)`. -/
def wait_agent_ready (attempt : Nat → Outcome Nat) (max_attempts : Nat) : Bool :=
  waitReadyFrom attempt 0 max_attempts

/-- The aggregate summary dictionary built by `_aggregate_results`. -/
structure Summary where
  total_tasks : Nat
  completed : Nat
  failed : Nat
  total_score : Int
  total_possible : Int
  overall_score : ℚ
deriving Repr

/-- `_aggregate_results`' return value: the summary plus the per-task list. -/
structure Aggregated where
  summary : Summary
  tasks : List TaskResult
deriving Repr

/-- `result.get("evaluation", {}).get("final_score", {}).get("result", 0)`. -/
def resultScore (r : TaskResult) : Int :=
  match r.evaluation with
  | some e => e.final_score.result
  | none => 0

/-- `result.get("evaluation", {}).get("final_score", {}).get("total", 0)`. -/
def resultTotal (r : TaskResult) : Int :=
  match r.evaluation with
  | some e => e.final_score.total
  | none => 0

/-- `TACEvaluator._aggregate_results`: filter by status, fold the score sums
over the completed results, and guard the overall ratio (float division
modelled exactly over `ℚ`). -/
def aggregate_results (results : List TaskResult) : Aggregated :=
  let completed := results.filter (fun r => r.status == "completed")
  let failed := results.filter (fun r => r.status == "failed")
  let total_score := completed.foldl (fun acc r => acc + resultScore r) 0
  let total_possible := completed.foldl (fun acc r => acc + resultTotal r) 0
  { summary :=
    { total_tasks := results.length, completed := completed.length,
      failed := failed.length, total_score := total_score,
      total_possible := total_possible,
      overall_score :=
        if total_possible > 0 then (total_score : ℚ) / (total_possible : ℚ) else 0 },
    tasks := results }

/-- `TACEvaluator.evaluate_tasks`: select tasks and images (two independent
`select_tasks` calls on the shared generator state), check subject readiness
once (raising `RuntimeError` when it fails), then evaluate each selected task
sequentially and aggregate.  `envOf` gives each task's operation outcomes;
`.error` models an exception escaping the call. -/
def evaluate_tasks (fuel : Nat) (sel : TaskSelector) (g : MTState)
    (attempt : Nat → Outcome Nat) (envOf : String → TaskEnv)
    (white_agent_url output_dir : String) : Except String Aggregated :=
  match sel.select_tasks fuel g with
  | none => .error "random.sample failed"
  | some (tasks, g1) =>
    match sel.get_task_images fuel g1 with
    | none => .error "random.sample failed"
    | some (task_images, _) =>
      if wait_agent_ready attempt 30 then
        let all_results := (tasks.zip task_images).map
          (fun p => (evaluate_task p.1 p.2 (envOf p.1) output_dir).1)
        .ok (aggregate_results all_results)
      else .error ("White agent at " ++ white_agent_url ++ " is not ready")

/-! ### Auxiliary decidable checkers and concrete fixtures -/

/-- Boolean duplicate-freedom check (kernel-friendly form of `List.Nodup`). -/
def nodupb : List String → Bool
  | [] => true
  | x :: xs => (!(xs.contains x)) && nodupb xs

/-- Whether the trajectory step (step 3/4/5 of `evaluate_task`) runs without an
uncaught exception: the precomputed copy succeeds, or the live exchange's send
and save both succeed. -/
def trajStepOk (env : TaskEnv) : Bool :=
  match env.precomputed_trajectory with
  | some _ => (match env.copy_file with | .ok _ => true | .exn _ => false)
  | none =>
    (match env.send_message with | .ok _ => true | .exn _ => false) &&
    (match env.save_trajectory with | .ok _ => true | .exn _ => false)

/-- Whether `run_evaluation` failed to produce a result dictionary: it
returned `None` or raised. -/
def runEvalFailed (o : Outcome (Option EvalResult)) : Bool :=
  match o with
  | .ok (some _) => false
  | .ok none => true
  | .exn _ => true

/-- A completed per-task record whose container-produced score claims more
points achieved than possible (nothing in the pipeline validates the parsed
result JSON). -/
def overclaimedResult : TaskResult :=
  { task_name := "sde-create-new-repo",
    task_image := "ghcr.io/theagentcompany/sde-create-new-repo-image:1.0.0",
    status := "completed",
    evaluation := some ⟨[⟨2, 1⟩], ⟨2, 1⟩, "sde-create-new-repo", none, none⟩,
    error := none, warning := none }

/-- The selector of the reproducibility scenario: subset `"beginner"`
(4 tasks), `max_tasks = 2`, `random_seed = 42`. -/
def c5Selector : TaskSelector := ⟨some "beginner", none, none, some 2, some 42⟩

/-- A task-operation environment in which every operation succeeds and the
scoring container reports one of two checkpoints achieved. -/
def envAllOk : TaskEnv :=
  { pull_image := .ok true, precomputed_instructions := [],
    docker_instruction := .ok "do the task", precomputed_trajectory := none,
    copy_file := .ok (), send_message := .ok "done",
    save_trajectory := .ok (), skip_docker_eval := false,
    run_evaluation := .ok (some ⟨[⟨1, 2⟩], ⟨1, 2⟩, "t", none, none⟩) }

/-- Packed MT19937 state after `init_genrand(19650218)`. -/
def mtStateA : Nat := 62685089405509111925910797243914719854890513935494713084094713797279779630627496305943786046941309007281293105221577504421353501605599255248785149356818580886163074212016138319710181437623915839386196989339984175865611290932895638485827512283879634622589907034847096838980553398268338905605705315464924834076955485269257682765843392777664062904318116756644819538761883164862381873685805923051342196114892111881287659915424456096361326051748180740843339721465950121631833352165428366344241754810081140762710579390137795215443629123183303201044796731629341661542390258966032612552126580439913324626563213547393121217728067632048719897064596438939163041106934301355643192260261867872030533878188557727018817797219012064641958276099544136480610826250078810896212505254064619595899307426216931651016613164877613570296351724055264357110051005104450572173606849938075379012356137114572525910752676385589168436483206759652170097284388598518122222819376116616668668677988651997615236221431416155794821321118852088948452164682783715959922435191327367306488124638818446090532334864386359317233873012285172875896330714873881780586230596002778688422250420590175698633544778262136505069053046737202152515000629854634631225453245996997340762744567896897683212149150732909707719966588817675821630380251456266588599804209831660991462715440400663143017564651072677052296295930367391822676512661642282350234567553218318066651318510488484545671729568971887621684270732981974442582657502555066960418690332945218280990034155505553171409775830458482159957769211244505225186771766058316021949327301666418107251589707938065072144733816368743637495699897181007119363672460040974223449086641663004605507793014252452324150238463715514559124307431648478948480649031081489229583165223570218974125422263886587593014744330199975749832650568652404661542746543584685860761547297457070273167102314576665676644281998277713093924236551494770138725647883566971887853912300960949802636372591951717316415323846182747445131420005722224687602711525724505110953736568981699982016588947035894059736087136235396798804019434387781559696138411966704777989194870090051835909943079457649936020314680876367897457337488804889342331824364904005266943816631681518612047693872607083945336048154993001716858914072302230374294986610531277637599664647525761147514008899238689946802093944865612982597431648203028809043429562401771290925843222821220221381984318518256971016750121270624021542153515130386081256853244444367484914891752438843250797295149886721543902585582757118492217204960123203770309672216674331373413106027454841661967870247822106376003696537006476355273043676224973894002060133928765135363584693312631060562155459381152426642778209514491263275588735458188352331628933634618912177576995916817414488324819680108333628484452298807271017999262374749573133359090629722111402666396222385680310709557844049479865847370371052888681758484468279513921172987571336140289500145715018352119752770038578015899178947425013401300127437407370742417936980607757405410607208376626705322894782663757703548808362869195819947150150865798288136994832911439410269353230208345410503242199606186650417333579047848825834242257112060317620885151293421378661990197161958015730358249113963865616811805417654957899792836277351433146683316643158745577273742588847277405020330699298979666450169324546781433015633218213248018986767013905101885085728066131985273947793365444250280947765884488609302913437528001802423347517836456663978922564542901160075954132077499502061844004777463229898312792357201472450520034421742281215395838957029567457078867297742321364249618062920323524100796395855490398720473188748064226082130624085325443879193454095100721902723688608983702297802922465778395428510531587340343771240068168890882622394112252370643121994567113348850616779414952571984309063927162547038575769391208822294299053225776973195785292510157058775147687493667385905281728614066936870793483631104130486096422866739022254251631022238998824784309871214211336594149372534724828516536519652291847191320934127662041939033266344757810255450761243406685982638804631309022215852991706323223872506356963395668107287976200691035733250165615782065576159415303394415966535152327550107294310945533761757937224536792146711105700674959937207778503501562879445241463662142281185819506210181780721218897488871995890898495582077564387715740371190275817001449471008660140255770382875594805433223352833476546594040372715841292252983175468170554585838014797017976570586587751089146553833551413146641975370517778330202052282190648141351908509904289169596729111939424597802445523234111653813513351586367960175769546506050051493655326103823629699245586418016468660736051425039803522537493270385743437525903109563398688573456345292160567787373069854610200635728800730405759403691875432721043746233636765094325962472698626875833148826372580999341547042531665331710768365982359935219565301595187067772247975847412037958098451506998773182171027695752045356894447709388159633645629545493246019135820915900506906032640701290570506299065346661219735445730896769091171352761432210047450382980030625592142825700677633624952217795344145832513082782540989616413040988227257601039794195623143595351637462190706636535912449334420058581521218743569834717812580171279915160794789675762903718339466089866492140118823551337811927493524761760551434001520245324751568861558716803095718510972066599595072196209156923318071322517301806566620458899402166430591631348363311478802800521980525250372511467674969151489645720009661369785217086930227581405674315978920044798755483144811069077253851302610194739624245401270682864202663540116818822475326676741780611737275972111438408802370422377608919256570335384654037352344114105999356653180812503717835632673409647782213628400383443178293619326757139369589058612122088577237252104060778375287897543799460272211546791798613974575310224299012205778134871255296492395729078221387894808011355820153110205338707003138385845672884757408327786763143168159295742358655797897448897721796416755370

/-- Packed state halfway (312 iterations) through the first `init_by_array`
loop for key `[42]`. -/
def mtStateA2 : Nat := 62685089405509111925910797243914719854890513935494713084094713797279779630627496305943786046941309007281293105221577504421353501605599255248785149356818580886163074212016138319710181437623915839386196989339984175865611290932895638485827512283879634622589907034847096838980553398268338905605705315464924834076955485269257682765843392777664062904318116756644819538761883164862381873685805923051342196114892111881287659915424456096361326051748180740843339721465950121631833352165428366344241754810081140762710579390137795215443629123183303201044796731629341661542390258966032612552126580439913324626563213547393121217728067632048719897064596438939163041106934301355643192260261867872030533878188557727018817797219012064641958276099544136480610826250078810896212505254064619595899307426216931651016613164877613570296351724055264357110051005104450572173606849938075379012356137114572525910752676385589168436483206759652170097284388598518122222819376116616668668677988651997615236221431416155794821321118852088948452164682783715959922435191327367306488124638818446090532334864386359317233873012285172875896330714873881780586230596002778688422250420590175698633544778262136505069053046737202152515000629854634631225453245996997340762744567896897683212149150732909707719966588817675821630380251456266588599804209831660991462715440400663143017564651072677052296295930367391822676512661642282350234567553218318066651318510488484545671729568971887621684270732981974442582657502555066960418690332945218280990034155505553171409775830458482159957769211244505225186771766058316021949327301666418107251589707938065072144733816368743637495699897181007119363672460040974223449086641663004605507793014252452324150238463715514559124307431648478948480649031081489229583165223570218974125422263886587593014744330199975749832650568652404661542746543584685860761547297457070273167102314576665676644281998277713093924236551494770138725647883566971887853912300960949802636372591951717316415323846182747445131420005722224687602711525724505110953736568981699982016588947035894059736087136235396798804019434387781559696138411966704777989194870090051835909943079457649936020314680876367897457337488804889342331824364904005266943816631681518612047693872607083945336048154993001716858914072302230374294986610531277637599664647525761147514008899238689946802093944865612982597431648203028809043429562401771290925843222821220221381984318518256971016750121270624021542153515130386081256853244444367484914891752438843250797295149886721543902585582757118492217204960123203770309672216674331373413106027454841661967870247822106376003696537006476355273043676224973894002060133928765135363584693312631060562155459381152426642778209514491263275588735458188352331628933634618912177576995916817414488324819680108333628484452298807271017999262374749573133359090629722111402666396222385680310709557844049479865847370371052888681758484468279513921172987571336140289500145715018352119752770038578015899178947425013401300127437407370742417936980738455304137284431084381239360403362915983463134679949187798061689403573080465775647209174644291801373034748341292567450595097089421990343522847866615232611452214867722179708124029325674911875178612843024186601906115005580552642422321453433941752595264772438440170141836387576158886351375031751180704088488980053780139936226258931132673040354207694199354803949662490665944050623979966650943670448681124798896747908636254231444583744826068353475285825766686859132645838267491278590459348817949669190509824691554267805141195311944072653780422124422040408801662949082835768993279165488421242539384427492232531526318772001878399897790963700436549916352385062508397331144326508500922791606939942331669250556710734577184430815453456704894574998717392070785342130187805669063162204466224433579103956180414295878767016993479542419059527208513383894744900612060383028941315950134131390533011791504278003144894195744619620789154756513851215420791879131788663591866987303131605930899488427109468630330829637245158076847591699647709330919366853515007784845526727744289308819912594175738615826352087329035534302281874176058642871304896305177719829731473702784665409090027215648308928470333697989738249741328872950197770335079937891374064208510319745887264535239773011436708666693462158165177746655989086599143718631674574276617354584432964193940522143047997547289264727108968137690610866449520090694632542126571582354279900387497865104945892916675468957416355113135893790033532687599230261448170596177391935260550989747920200521907052271749693871363240112291603941125450349715637244371138492820051059560102395890419404783465190826589608091671440235276689198916012462360967971105358817851810077942474567822079973664630079720777157004147776250886707997484323391591458946803151917449177971108779561343940518518175949603439237017335668373333594151129258397128948571452040134800129355350061046671359982305849455139190795862963647518921459883516017207943696786922457252946123867973822638196186868109036723000834080543948442768558433263315628902922412891595023609039642864992566409680276151338248952692284542564838397868863135613238005416016124211745789069486741468983879611366145392846302165693634089505534105145834084717608921011885663332741764593938086665731565430345803655616452809737771652075004221109280335978282410236563600152035366231388447816269291953594668095734122420169601196836404921149019431461800418013376739685601417539517786075521302253940427304879432320777044291147432969322633011461758433653255170485043788677789645898187741802387268534923968447070050487430074772245297435609653871066922894734188318203564359052896373250436023399169638564542365567480483150849811305245860080518077938638449550570277097833924666118424827254282431616041044677740452236832289917492482442387084006471368709186381381328765090632973634932537653693926696904995081792695668303485960532489585630328825240271175284898795174731117586390212833410501964420935715428660053761260038445054258017866899898986717688175979683039316985345083381780305578

/-- Packed state after the first `init_by_array` loop for key `[42]`
(the loop stops at index 2). -/
def mtStateB : Nat := 33773506489637007645896830947751417851180265331228644372364518344875780168543153467881951181163862181286862698808829125290124627175686731869800874741307487965548930355266317783394240298830462487933448378572569367908179565462266594376627242036896706165965298232266834825444902647263860469080165516091875825188648710781958794987588984859700453180382178219353431089271034305083998723287183733348150441438228622618559382013764620383597058885593312774258240950679662604944697652560009591489741090435626475934666280605555195736731843666926019682589081598391160934762701154692050794442636217272039551770777689096408046771493987934781153455743049842145478093221854574186393743810311013663501714229088997284543044218674738424416385968770558136278866955777095124704735164117873905166250685503757332122564607628479344032566655939644704581548008277138690091575910290196390970376768858214919724058449339084587776718812550676528522169023778245368536626048133657549629430184060440799225701169391785264317567834528226883071807892435034067842673728492881635661593023582745385676224291324157697048429575827289853979478063252892687743854529886256153124060327221473687350266519969238003964853121962627802989864941081280485100942407377781788260385980519553818819930199438938374275704597110041637528827679932504137245089410381619775415752050116198407727659860461313118485789625295737585551627620320004898122739218546602762137095402704902124439898328009382454226227607122338919403997342627457836655912577785881737460049474636970495558073683479824398381762473355001415914823298209079466902912005781393189906894767711926072224052269127170984669585989203518786946549302630473038248835237230615396042649483021731352142638203851727985513898990983406914967220762427359730243419744990538091226168033070786769366992436808826473913210609912938229579972164363969071005685130716646011420702081420416384481288726757550236314603192767479786611776764522444376139418035330017688722194657593472817933698936411960869867356419443574657039519834751055280561855100146829203672363825831860134996443718368634795979628521856894205399876277128685891923766447379782363157353599465332586258297697961188260902953793009820214201795911764423185834510092205950855262676797488161498298653524334435216164022932227646500304276717509065131141365920796616816951569139907017662998109752663750660920737484998152455813006176361158981231790068032102898826487004770385290021323650045480836285750017093467862681663542388322378772608559897414261994736815884429750604574733498251614725672172513855578910584419130548420039229671240468021073057760357840285208319549422829443246837482820431600169157700780949354422403093037578420565471351562117466120658177697721324383724202721286454937303796836031571483014896696220232675310472367294638103805272780292281684023915331497831335716626159811129905946219257271221544692537825685211562799484075177381644990161283240409398788486135486172758805495128709566901136219865897453408380182692704805722202091617702156784707514173572772834376659601457245606310535840316216263781494922069575336130988019101044632912998335894966769237394293464411320824791805136310560436777231548601431081217224078586495854800142217139711463809728287879841465514197704647171032806105713626413370050164619062022980306906522015128612900352363424708038324992099411629643518664975552266525038327131694839879586243387751445433189473605470156862524456362518625941859233064097537391433529233717294506442018270772116543006037780174729184748853598711190216467464513403977439401168572627799625651942412164370285832383869953734322973298947097109340771240901488336975341535514335112220190013350276146318758772368322567440517531158417126927278290244362955572874462871683518938849155653148086678084653170880079148064626762945254058974602694218572177541859909245966554526961950248816009479740623005142883646682171481558803939344253423735072691027740446370402104599350470391310391971149567269350867587365874152030282052401068347176449994588253289668410666245315478900579005061610899499460753858092226090157159977023888966471310939343534302106495227958325439240274113164166804929644414645913888124856392735471881339513750468217566144794226200541507767028030553725479794100477817763753690254306923764138656292191545653842520014629674638233588037938303806827284632838384282297018824776114720045821529975457075847556025734817163304131839487802766401669664297541407219629274362821351326148586743716819088104495709460022203627184309023262398855491767699981800055250618884468080460864761907202505662059411060536721197642107108889482764981027444071665362197958771204607738235635023459578898629181282292527874880604702979012019049302611523234105212131050361508669400273969219769911272662367709021174025307116335353968598799866504519218206082554325704339008919879080475156237337957326606198376713061028285669661785989494994441561049445456802811521044021914213208480112541420367251023514608355998180289510100622809895811036822049240812369009658628415843816844626903403464028490666785875226139120165232214878960447862155287149491656772933447255092269989812503187996079285490646061728711835214649709503671389764046672815754720803609108082983725799268208736751513316847774644809493000046015162079187934953846500013574321506395544350131439330545510374057856648232545677040852151022594062956797643747235954145680667591306317596065705421137305984649975778527611050733952255796730908250050311764550327208727861600810808724255730329422514088285402594722537044648308136453695668387477493044686127545177361155088772117897654102470551749482730231839413104917298116909332179369925906916001163048282058943312039521281934398155680168735527045172224934539817316344506854306245840779987668488240919263435540105754224717989455349659657272590436010546962156119699214093591019429475933622294573359672417385737118270844339214178809065080896835343898543125407555332083892593758145879518570685095346550227312832111634374826082157819753075628595279534836940847034400018114577390146369902483091535267852010285416983

/-- Packed state after the second `init_by_array` loop. -/
def mtStateC : Nat := 82663673431515298878348125892076922365783069757798526784244050598313937512767946555105567842135433541961268832679564447481930064532585187162994848009574585122686978465536439186381119346285389971015664497868787229171546936942409743491868498635940684276698436506858484119070421511331132895304993849329208393304167080010636930173614624441936828135292295563718855043520888652492240787378188287948756429859678131320313149722218900291805028338565883078467138401494859521575283099145981678792121605979857514686793130943330313770376111649808959951136893973580829458877602381614555916176041877040780308989402930592924948451008392659903891078302468096510073054561268220357432569293521497131830922044988516040316696461890252658891937812137077698326841028526045017829237605777094083838852105281119467999132979162337968258864765593801439178690440189871328494739303638814863268844841313736550299766837110548953858269079978575300077403214500257399917385654509269855280076866593554001298152333401922224966669026142300705073497006787091546588638315672230373963619276949115860857537915195517971528759783091402967302621538207894751586345254545658890812158326957740026680361046254661091788809833141626179961244339817613410573958847339378373187693619441538637775379117387231005821087272257887575588666415472628576633153140593663370835676581874735924421676041910321962267240021638441198216858885623188152818149414018042869563767627928969512731857081428011617730744208084126530327493218283188330237634627043385971325726381941006315313020942714598258310683987876910665727287731188639790124681293867861646234928635170596055347748876320543460563710598217691119774835137262721653203268760315335132369835811988465882558753871413950567187950888491278778708993179769359589212223140338911648929104812059421030013898069576284523018150963896668952801120411674791778429096110671166995381822858827748143835556358862070943257843870596573540637319545893499686427023193503527501212077208886574386377910506614773834017585095571295086219028523946090089278153258661151101652418776500307460700083973906927280045011707987505449833896480127873306359431148607415078923831461270087142319684009331203361762220712446499023695587145239836507803911814882161915063108199421454462180373951176940080591277458243306990424535174590565608117888570339351020282643416147931579001026071809341119535798341882348591866021341816283858477697743453078021468501089065876249217344973525146889733762953917240334288868075485850723093607653871568457710689630971657574294402882195859207485343534840350175651994341004124212724981721578117943060373849165947808571471891508735080997298866016147935597339741326699207245466538208100666522864891933314470052847443745362970439547486838679354253152706760662870260695765537519959477479236623427719242905028476959368576490782805659127625261440007910351269462263618011075338316276799690902972302414342081963789515076393143995054867467145996471721122262153391442956285601802605476397557566559450267605107458855443216396947043236466552312718601892346433056767222165007631025666329375837184765840658676984284898489439007535391352662806494262031897013250263783539285102395455285405586348388035372015632823519802485179765492948982546612526153800948715917650443950850763563724409276334725236486125780651617723156297129367448296429400501658864742787022386577801752109777995373643436257912637333933711048378945228596862424214289259619104637366641443538704731253676073244211636412676550633624664133121478778776111533665195661274450601309176889593940105997537866071103429448805421406604198813742993998233955753216345778991410288420119110747377910893206478621845275458581206595814392549010399578388394455596558399177559012440595257880737519332053733088704345198907442504378387452888582487598736159677336669375019252418034169126276810242464452009879946391356983340052344519479660054088553061453767842109352665840972474712870381811517528648921344229102378851273254037244071546208559258016189186158802618570846122407575805735030986258251196917519792348510966228747838123198341870470991715526936441643149113847485699378420789111139857383241164952960343291754521639145070355966654445817548644348650273031627831871495744424251118353351051222881461179282505742625883322828268681808442704003090495155928716789727084061892349514338658395371297819336306263603709114744903843904591124462052342531061608033894644700791602929417769154835809424656043301921926405984733455919977169569562649687764138614136181729139101193691064746253805507687858731219097977446277929944857559114214479159089992700650344331766417996128520977707702114605234270300941059024559973626552283595879490977810574097596817932342925187862210088032263679453624373251399815432164509970923732755899633213695217078969529292889501568936211411421832673008676464711723258486764387687868195022143610469168114413816692593499503362135502793949170225772523155861923786490569333307891612009190037098908912854496416224567772506087995574471691774742094533496432215025256857202341100016144546835039088618003145675471911061031651823919108846562898430344438333412649773016774319745863312578255622591730450250454049581974952521575677756510885726227820993325710142791982262002791705187233974393058765755898055574917073353369401448705875691147668673637031620118190837133060462247401748650653817816500141693022196589991967774605824182010372414700031888464714730496618956601046353021989592591742320641287758643958518097449941404447696168491179816629429129771105998930717437864821069172069443993350771034571599696711991967256208924709477644996763434696889220399136009975669525716352049291399547346304876650638301401301618762213031777838267774121901738861940788081719129371439913104498129403320815411623744192827189151602680112510742587865501506308134080999842352934760391759277333729625584783607717610692317409767482322713453654931345215458341138477248249917257282357085856207131022595584665377353030892790299412394424181800230114513106055999290234221809887012605716481381181377152610833997359650142432360208923679629717

/-- Packed state produced by `random.seed(42)` (word 0 forced to `2^31`). -/
def mtSeed42 : Nat := 82663673431515298878348125892076922365783069757798526784244050598313937512767946555105567842135433541961268832679564447481930064532585187162994848009574585122686978465536439186381119346285389971015664497868787229171546936942409743491868498635940684276698436506858484119070421511331132895304993849329208393304167080010636930173614624441936828135292295563718855043520888652492240787378188287948756429859678131320313149722218900291805028338565883078467138401494859521575283099145981678792121605979857514686793130943330313770376111649808959951136893973580829458877602381614555916176041877040780308989402930592924948451008392659903891078302468096510073054561268220357432569293521497131830922044988516040316696461890252658891937812137077698326841028526045017829237605777094083838852105281119467999132979162337968258864765593801439178690440189871328494739303638814863268844841313736550299766837110548953858269079978575300077403214500257399917385654509269855280076866593554001298152333401922224966669026142300705073497006787091546588638315672230373963619276949115860857537915195517971528759783091402967302621538207894751586345254545658890812158326957740026680361046254661091788809833141626179961244339817613410573958847339378373187693619441538637775379117387231005821087272257887575588666415472628576633153140593663370835676581874735924421676041910321962267240021638441198216858885623188152818149414018042869563767627928969512731857081428011617730744208084126530327493218283188330237634627043385971325726381941006315313020942714598258310683987876910665727287731188639790124681293867861646234928635170596055347748876320543460563710598217691119774835137262721653203268760315335132369835811988465882558753871413950567187950888491278778708993179769359589212223140338911648929104812059421030013898069576284523018150963896668952801120411674791778429096110671166995381822858827748143835556358862070943257843870596573540637319545893499686427023193503527501212077208886574386377910506614773834017585095571295086219028523946090089278153258661151101652418776500307460700083973906927280045011707987505449833896480127873306359431148607415078923831461270087142319684009331203361762220712446499023695587145239836507803911814882161915063108199421454462180373951176940080591277458243306990424535174590565608117888570339351020282643416147931579001026071809341119535798341882348591866021341816283858477697743453078021468501089065876249217344973525146889733762953917240334288868075485850723093607653871568457710689630971657574294402882195859207485343534840350175651994341004124212724981721578117943060373849165947808571471891508735080997298866016147935597339741326699207245466538208100666522864891933314470052847443745362970439547486838679354253152706760662870260695765537519959477479236623427719242905028476959368576490782805659127625261440007910351269462263618011075338316276799690902972302414342081963789515076393143995054867467145996471721122262153391442956285601802605476397557566559450267605107458855443216396947043236466552312718601892346433056767222165007631025666329375837184765840658676984284898489439007535391352662806494262031897013250263783539285102395455285405586348388035372015632823519802485179765492948982546612526153800948715917650443950850763563724409276334725236486125780651617723156297129367448296429400501658864742787022386577801752109777995373643436257912637333933711048378945228596862424214289259619104637366641443538704731253676073244211636412676550633624664133121478778776111533665195661274450601309176889593940105997537866071103429448805421406604198813742993998233955753216345778991410288420119110747377910893206478621845275458581206595814392549010399578388394455596558399177559012440595257880737519332053733088704345198907442504378387452888582487598736159677336669375019252418034169126276810242464452009879946391356983340052344519479660054088553061453767842109352665840972474712870381811517528648921344229102378851273254037244071546208559258016189186158802618570846122407575805735030986258251196917519792348510966228747838123198341870470991715526936441643149113847485699378420789111139857383241164952960343291754521639145070355966654445817548644348650273031627831871495744424251118353351051222881461179282505742625883322828268681808442704003090495155928716789727084061892349514338658395371297819336306263603709114744903843904591124462052342531061608033894644700791602929417769154835809424656043301921926405984733455919977169569562649687764138614136181729139101193691064746253805507687858731219097977446277929944857559114214479159089992700650344331766417996128520977707702114605234270300941059024559973626552283595879490977810574097596817932342925187862210088032263679453624373251399815432164509970923732755899633213695217078969529292889501568936211411421832673008676464711723258486764387687868195022143610469168114413816692593499503362135502793949170225772523155861923786490569333307891612009190037098908912854496416224567772506087995574471691774742094533496432215025256857202341100016144546835039088618003145675471911061031651823919108846562898430344438333412649773016774319745863312578255622591730450250454049581974952521575677756510885726227820993325710142791982262002791705187233974393058765755898055574917073353369401448705875691147668673637031620118190837133060462247401748650653817816500141693022196589991967774605824182010372414700031888464714730496618956601046353021989592591742320641287758643958518097449941404447696168491179816629429129771105998930717437864821069172069443993350771034571599696711991967256208924709477644996763434696889220399136009975669525716352049291399547346304876650638301401301618762213031777838267774121901738861940788081719129371439913104498129403320815411623744192827189151602680112510742587865501506308134080999842352934760391759277333729625584783607717610692317409767482322713453654931345215458341138477248249917257282357085856207131022595584665377353030892790299412394424181800230114513106055999290234221809887012605716481381181377152610833997359650142432360208921996034048

/-- A completed per-task record whose score stays within bounds (one of two
checkpoints achieved). -/
def wellScoredResult : TaskResult :=
  { task_name := "pm-send-hello-message",
    task_image := "ghcr.io/theagentcompany/pm-send-hello-message-image:1.0.0",
    status := "completed",
    evaluation := some ⟨[⟨1, 2⟩], ⟨1, 2⟩, "pm-send-hello-message", none, none⟩,
    error := none, warning := none }

/-- A failed per-task record (an uncaught exception inside the per-task try). -/
def failedResult : TaskResult :=
  { task_name := "sde-run-janusgraph",
    task_image := "ghcr.io/theagentcompany/sde-run-janusgraph-image:1.0.0",
    status := "failed", evaluation := none,
    error := some "httpx.ConnectError: connection refused", warning := none }

/-- Environment in which the Docker image pull reports the image unavailable. -/
def envPullUnavailable : TaskEnv :=
  { envAllOk with pull_image := .ok false }

/-- Environment in which everything up to scoring succeeds but the scoring
container produces no result (`run_evaluation` returns `None`). -/
def envScoringFails : TaskEnv :=
  { envAllOk with run_evaluation := .ok none }

/-- Environment in which a precomputed trajectory exists for the task. -/
def envPrecomputed : TaskEnv :=
  { envAllOk with precomputed_trajectory := some "precomputed trajectory bytes" }

/-- A readiness-poll outcome function on which every attempt raises. -/
def attemptRefused : Nat → Outcome Nat := fun _ => .exn "connection refused"

/-- A selector with every field `None` (resolves to the default subset). -/
def defaultSelector : TaskSelector := ⟨none, none, none, none, none⟩

/-! ### Supporting lemmas -/

theorem nodupb_nodup : ∀ l : List String, nodupb l = true → l.Nodup := by
  intro l
  induction l with
  | nil => intro _; exact List.nodup_nil
  | cons x xs ih =>
    intro h
    rw [nodupb, Bool.and_eq_true, Bool.not_eq_true'] at h
    refine List.nodup_cons.mpr ⟨?_, ih h.2⟩
    intro hmem
    have hc : xs.contains x = true := by simpa using hmem
    rw [h.1] at hc
    exact Bool.false_ne_true hc

theorem foldl_add_eq_sum (f : TaskResult → Int) :
    ∀ (l : List TaskResult) (init : Int),
      l.foldl (fun acc r => acc + f r) init = init + (l.map f).sum := by
  intro l
  induction l with
  | nil => intro init; simp
  | cons r rs ih => intro init; simp [List.foldl_cons, ih]; ring

theorem waitReadyFrom_false (attempt : Nat → Outcome Nat) :
    ∀ n i, (∀ j, j < n → attemptSucceeds (attempt (i + j)) = false) →
      waitReadyFrom attempt i n = false := by
  intro n
  induction n with
  | zero => intro i _; rfl
  | succ m ih =>
    intro i h
    have h0 : attemptSucceeds (attempt i) = false := by simpa using h 0 (Nat.succ_pos m)
    rw [waitReadyFrom, h0]
    simp only [Bool.false_eq_true, if_false]
    exact ih (i + 1) (fun j hj => by
      have := h (j + 1) (by omega)
      simpa [Nat.add_assoc, Nat.add_comm 1 j] using this)

theorem aggregate_overall_pos (results : List TaskResult)
    (h : (aggregate_results results).summary.total_possible > 0) :
    (aggregate_results results).summary.overall_score =
      ((aggregate_results results).summary.total_score : ℚ) /
        ((aggregate_results results).summary.total_possible : ℚ) := by
  simp only [aggregate_results] at h ⊢
  rw [if_pos h]

theorem aggregate_overall_zero (results : List TaskResult)
    (h : (aggregate_results results).summary.total_possible = 0) :
    (aggregate_results results).summary.overall_score = 0 := by
  simp only [aggregate_results] at h ⊢
  rw [if_neg (by omega)]

/-! ### C1 -/

/-- C1: for every task and every outcome environment, `evaluate_task` returns
normally (it is a total function of the operation outcomes: every exception
inside the per-task pipeline is caught) and yields exactly one result record
whose status is `"completed"` or `"failed"`, carrying an evaluation result
exactly when completed and an error string exactly when failed. -/
theorem evaluate_task_one_consistent_record (task_name task_image output_dir : String)
    (env : TaskEnv) :
    ((evaluate_task task_name task_image env output_dir).1.status = "completed" ∨
      (evaluate_task task_name task_image env output_dir).1.status = "failed") ∧
    ((evaluate_task task_name task_image env output_dir).1.status = "completed" ↔
      (evaluate_task task_name task_image env output_dir).1.evaluation.isSome) ∧
    ((evaluate_task task_name task_image env output_dir).1.status = "failed" ↔
      (evaluate_task task_name task_image env output_dir).1.error.isSome) := by
  obtain ⟨pull, pre, di, pt, cf, sm, st, sde, re⟩ := env
  cases pull with
  | exn e => simp [evaluate_task]
  | ok avail =>
    cases avail
    · simp [evaluate_task]
    · cases pt <;> cases cf <;> cases sm <;> cases st <;>
        simp [evaluate_task, evaluateTaskBody]

/-! ### C10 -/

/-- C10: an explicitly provided but empty task-name list is falsy in Python,
so `select_tasks` behaves exactly as if no explicit list had been given,
falling through to the subset (or default) resolution. -/
theorem select_tasks_empty_names_like_none (subset : Option String)
    (tids : Option (List Int)) (mt seed : Option Int) (fuel : Nat) (g : MTState) :
    TaskSelector.select_tasks fuel ⟨subset, tids, some [], mt, seed⟩ g =
      TaskSelector.select_tasks fuel ⟨subset, tids, none, mt, seed⟩ g := rfl

/-! ### C4 -/

/-- C4: selection resolution is first-match-wins: a truthy explicit task-name
list is used as given; otherwise a truthy subset name found in `TASK_SUBSETS`
selects that subset; otherwise — including any unknown subset name, which
never raises since `resolve_tasks` is total — the default `"intermediate"`
subset is returned.  When the `max_tasks` cap does not apply, `select_tasks`
returns the resolved list unchanged. -/
theorem select_tasks_resolution_order (sel : TaskSelector) (fuel : Nat) (g : MTState) :
    (optTruthyList sel.task_names = true →
      sel.resolve_tasks = sel.task_names.getD []) ∧
    (optTruthyList sel.task_names = false → optTruthyStr sel.subset = true →
      ∀ l, subsetsLookup (sel.subset.getD "") = some l → sel.resolve_tasks = l) ∧
    (optTruthyList sel.task_names = false →
      (optTruthyStr sel.subset = false ∨ subsetsLookup (sel.subset.getD "") = none) →
      sel.resolve_tasks = (subsetsLookup "intermediate").getD []) ∧
    ((optTruthyInt sel.max_tasks && ((sel.resolve_tasks.length : Int) > sel.max_tasks.getD 0))
        = false →
      sel.select_tasks fuel g = some (sel.resolve_tasks, g)) := by
  refine ⟨?_, ?_, ?_, ?_⟩
  · intro h
    rw [TaskSelector.resolve_tasks, h]
    simp
  · intro h1 h2 l hl
    rw [TaskSelector.resolve_tasks, h1]
    simp [h2, hl]
  · intro h1 h2
    rw [TaskSelector.resolve_tasks, h1]
    rcases h2 with h2 | h2 <;> simp [h2]
  · intro h
    rw [TaskSelector.select_tasks]
    simp [h]

/-- Witness for C4 at concrete inputs: an unknown subset name resolves to the
default `"intermediate"` subset, and without a cap `select_tasks` returns it. -/
theorem select_tasks_resolution_order_witness :
    TaskSelector.resolve_tasks ⟨some "nonexistent-subset", none, none, none, none⟩ =
      (subsetsLookup "intermediate").getD [] ∧
    TaskSelector.select_tasks 1 ⟨some "nonexistent-subset", none, none, none, none⟩ ⟨0, 0⟩ =
      some (TaskSelector.resolve_tasks ⟨some "nonexistent-subset", none, none, none, none⟩, ⟨0, 0⟩) :=
  ⟨(select_tasks_resolution_order ⟨some "nonexistent-subset", none, none, none, none⟩ 1 ⟨0, 0⟩).2.2.1
      (by decide) (Or.inr (by decide)),
   (select_tasks_resolution_order ⟨some "nonexistent-subset", none, none, none, none⟩ 1 ⟨0, 0⟩).2.2.2
      (by decide)⟩

/-! ### C2 -/

/-- C2: the aggregate sums achieved and possible points over exactly the
results whose status is `"completed"`; `"failed"` results are counted in the
failed tally but contribute to neither sum; the overall ratio equals
`total_score / total_possible` when `total_possible > 0` and is `0` when
`total_possible = 0`. -/
theorem aggregate_results_sums_over_completed (results : List TaskResult) :
    (aggregate_results results).summary.total_score =
      ((results.filter (fun r => r.status == "completed")).map resultScore).sum ∧
    (aggregate_results results).summary.total_possible =
      ((results.filter (fun r => r.status == "completed")).map resultTotal).sum ∧
    (aggregate_results results).summary.failed =
      (results.filter (fun r => r.status == "failed")).length ∧
    ((aggregate_results results).summary.total_possible > 0 →
      (aggregate_results results).summary.overall_score =
        ((aggregate_results results).summary.total_score : ℚ) /
          ((aggregate_results results).summary.total_possible : ℚ)) ∧
    ((aggregate_results results).summary.total_possible = 0 →
      (aggregate_results results).summary.overall_score = 0) := by
  refine ⟨?_, ?_, ?_, ?_, ?_⟩
  · simp [aggregate_results, foldl_add_eq_sum]
  · simp [aggregate_results, foldl_add_eq_sum]
  · simp [aggregate_results]
  · intro h
    simp only [aggregate_results] at h ⊢
    rw [if_pos h]
  · intro h
    simp only [aggregate_results] at h ⊢
    rw [if_neg (by omega)]

/-- Witness for C2 at a concrete mixed result list. -/
theorem aggregate_results_sums_over_completed_witness :
    (aggregate_results [wellScoredResult, failedResult]).summary.total_possible > 0 ∧
    (aggregate_results [wellScoredResult, failedResult]).summary.overall_score =
      ((aggregate_results [wellScoredResult, failedResult]).summary.total_score : ℚ) /
        ((aggregate_results [wellScoredResult, failedResult]).summary.total_possible : ℚ) :=
  ⟨by decide,
   (aggregate_results_sums_over_completed [wellScoredResult, failedResult]).2.2.2.1 (by decide)⟩

/-! ### C3 -/

/-- C3 counterexample: nothing validates the score JSON parsed from the
scoring container, so a completed result claiming 2 points of 1 possible
drives the overall ratio above 1 even though the possible-sum is positive. -/
theorem overall_score_can_exceed_one :
    (aggregate_results [overclaimedResult]).summary.total_possible > 0 ∧
    ¬ ((aggregate_results [overclaimedResult]).summary.overall_score ≤ 1) := by
  have hs : (aggregate_results [overclaimedResult]).summary.total_score = 2 := by decide
  have hp : (aggregate_results [overclaimedResult]).summary.total_possible = 1 := by decide
  refine ⟨by omega, ?_⟩
  rw [aggregate_overall_pos [overclaimedResult] (by omega), hs, hp]
  norm_num

/-- C3 (amended): whenever every completed result's final score satisfies
`0 ≤ achieved ≤ possible` — which the code does not itself enforce on
container-produced scores — the overall ratio lies in `[0, 1]` when the
possible-sum is positive, and is `0` when the possible-sum is `0`. -/
theorem overall_score_bounds (results : List TaskResult)
    (h : ∀ r ∈ results, r.status = "completed" →
      0 ≤ resultScore r ∧ resultScore r ≤ resultTotal r) :
    ((aggregate_results results).summary.total_possible > 0 →
      0 ≤ (aggregate_results results).summary.overall_score ∧
      (aggregate_results results).summary.overall_score ≤ 1) ∧
    ((aggregate_results results).summary.total_possible = 0 →
      (aggregate_results results).summary.overall_score = 0) := by
  have hmem : ∀ r ∈ results.filter (fun r => r.status == "completed"),
      0 ≤ resultScore r ∧ resultScore r ≤ resultTotal r := by
    intro r hr
    rw [List.mem_filter] at hr
    exact h r hr.1 (by simpa using hr.2)
  have hscore : 0 ≤ ((results.filter (fun r => r.status == "completed")).map resultScore).sum := by
    apply List.sum_nonneg
    intro x hx
    rw [List.mem_map] at hx
    obtain ⟨r, hr, hxr⟩ := hx
    rw [← hxr]
    exact (hmem r hr).1
  have hle : ((results.filter (fun r => r.status == "completed")).map resultScore).sum ≤
      ((results.filter (fun r => r.status == "completed")).map resultTotal).sum :=
    List.sum_le_sum (fun r hr => (hmem r hr).2)
  constructor
  · intro hpos
    simp only [aggregate_results, foldl_add_eq_sum, zero_add] at hpos ⊢
    rw [if_pos hpos]
    have hposq : (0 : ℚ) <
        (((results.filter (fun r => r.status == "completed")).map resultTotal).sum : ℚ) := by
      exact_mod_cast hpos
    constructor
    · exact div_nonneg (by exact_mod_cast hscore) (le_of_lt hposq)
    · rw [div_le_one hposq]
      exact_mod_cast hle
  · intro h0
    simp only [aggregate_results, foldl_add_eq_sum, zero_add] at h0 ⊢
    rw [if_neg (by omega)]

/-- Witness for C3's amended bound at a concrete in-bounds result list. -/
theorem overall_score_bounds_witness :
    (aggregate_results [wellScoredResult]).summary.total_possible > 0 ∧
    (0 ≤ (aggregate_results [wellScoredResult]).summary.overall_score ∧
      (aggregate_results [wellScoredResult]).summary.overall_score ≤ 1) :=
  ⟨by decide, (overall_score_bounds [wellScoredResult] (by decide)).1 (by decide)⟩

/-! ### C6 -/

/-- C6: when the sandboxing layer is unavailable (`pull_image` returns `False`
or raises) or scoring cannot produce a result (`run_evaluation` returns `None`
or raises, reached whenever the image is available, Docker evaluation is not
skipped, and the trajectory step does not raise), `evaluate_task` substitutes
the placeholder score — checkpoints `[1 possible / 0 achieved]` and
`final_score` `0/1` — tagged with an error string, marks the task
`"completed"` (not `"failed"`), and returns normally so the run continues. -/
theorem placeholder_score_on_failure (task_name task_image output_dir : String)
    (env : TaskEnv) :
    (env.pull_image ≠ .ok true →
      (evaluate_task task_name task_image env output_dir).1.status = "completed" ∧
      ∃ ev, (evaluate_task task_name task_image env output_dir).1.evaluation = some ev ∧
        ev.checkpoints = [⟨0, 1⟩] ∧ ev.final_score = ⟨0, 1⟩ ∧ ev.error.isSome) ∧
    (env.pull_image = .ok true → env.skip_docker_eval = false →
      trajStepOk env = true → runEvalFailed env.run_evaluation = true →
      (evaluate_task task_name task_image env output_dir).1.status = "completed" ∧
      ∃ ev, (evaluate_task task_name task_image env output_dir).1.evaluation = some ev ∧
        ev.checkpoints = [⟨0, 1⟩] ∧ ev.final_score = ⟨0, 1⟩ ∧ ev.error.isSome) := by
  obtain ⟨pull, pre, di, pt, cf, sm, st, sde, re⟩ := env
  constructor
  · intro hpull
    cases pull with
    | exn e => simp [evaluate_task, mockEval]
    | ok b =>
      cases b
      · simp [evaluate_task, mockEval]
      · exact absurd rfl hpull
  · intro hpull hskip htraj hre
    simp only at hpull hskip htraj hre
    subst hpull
    subst hskip
    cases re with
    | ok o =>
      cases o with
      | some r => exact absurd hre (by simp [runEvalFailed])
      | none =>
        cases pt with
        | some content =>
          cases cf with
          | ok u => simp [evaluate_task, evaluateTaskBody, mockEval]
          | exn e => exact absurd htraj (by simp [trajStepOk])
        | none =>
          cases sm with
          | exn e => exact absurd htraj (by simp [trajStepOk])
          | ok reply =>
            cases st with
            | exn e => exact absurd htraj (by simp [trajStepOk])
            | ok u => simp [evaluate_task, evaluateTaskBody, mockEval]
    | exn emsg =>
      cases pt with
      | some content =>
        cases cf with
        | ok u => simp [evaluate_task, evaluateTaskBody, mockEval]
        | exn e => exact absurd htraj (by simp [trajStepOk])
      | none =>
        cases sm with
        | exn e => exact absurd htraj (by simp [trajStepOk])
        | ok reply =>
          cases st with
          | exn e => exact absurd htraj (by simp [trajStepOk])
          | ok u => simp [evaluate_task, evaluateTaskBody, mockEval]

/-- Witness for C6 at concrete environments: an unavailable image, and a
scoring pass that returns no result. -/
theorem placeholder_score_on_failure_witness :
    ((evaluate_task "t" "i" envPullUnavailable "o").1.status = "completed" ∧
      ∃ ev, (evaluate_task "t" "i" envPullUnavailable "o").1.evaluation = some ev ∧
        ev.checkpoints = [⟨0, 1⟩] ∧ ev.final_score = ⟨0, 1⟩ ∧ ev.error.isSome) ∧
    ((evaluate_task "t" "i" envScoringFails "o").1.status = "completed" ∧
      ∃ ev, (evaluate_task "t" "i" envScoringFails "o").1.evaluation = some ev ∧
        ev.checkpoints = [⟨0, 1⟩] ∧ ev.final_score = ⟨0, 1⟩ ∧ ev.error.isSome) :=
  ⟨(placeholder_score_on_failure "t" "i" "o" envPullUnavailable).1 (by decide),
   (placeholder_score_on_failure "t" "i" "o" envScoringFails).2 rfl rfl (by decide) (by decide)⟩

/-! ### C7 -/

/-- C7: when a precomputed trajectory exists for the task, `evaluate_task`
never calls the transport's send operation, and (when the image is available
and the copy succeeds) writes that trajectory's content verbatim to
`traj_<task>.json` in the run's output directory. -/
theorem precomputed_trajectory_no_send (task_name task_image output_dir content : String)
    (env : TaskEnv) (hpre : env.precomputed_trajectory = some content) :
    (evaluate_task task_name task_image env output_dir).2.send_called = false ∧
    (env.pull_image = .ok true → env.copy_file = .ok () →
      (evaluate_task task_name task_image env output_dir).2.trajectory_write =
        some (trajFilePath output_dir task_name, .copied content)) := by
  obtain ⟨pull, pre, di, pt, cf, sm, st, sde, re⟩ := env
  simp only at hpre
  subst hpre
  constructor
  · cases pull with
    | exn e => simp [evaluate_task]
    | ok b =>
      cases b
      · simp [evaluate_task]
      · cases cf <;> simp [evaluate_task, evaluateTaskBody]
  · intro hpull hcopy
    simp only at hpull hcopy
    subst hpull
    subst hcopy
    simp [evaluate_task, evaluateTaskBody]

/-- Witness for C7 at a concrete environment holding a precomputed
trajectory. -/
theorem precomputed_trajectory_no_send_witness :
    (evaluate_task "t" "i" envPrecomputed "o").2.send_called = false ∧
    (evaluate_task "t" "i" envPrecomputed "o").2.trajectory_write =
      some (trajFilePath "o" "t", .copied "precomputed trajectory bytes") :=
  ⟨(precomputed_trajectory_no_send "t" "i" "o" "precomputed trajectory bytes"
      envPrecomputed rfl).1,
   (precomputed_trajectory_no_send "t" "i" "o" "precomputed trajectory bytes"
      envPrecomputed rfl).2 rfl rfl⟩

/-! ### C8 -/

/-- C8: when every one of the 30 polling attempts fails, `wait_agent_ready`
returns `False` (the loop swallows responses and exceptions alike and is a
total function, so exhaustion never raises), and `evaluate_tasks` then stops
with the fatal `RuntimeError` before evaluating any task, so its result
carries zero task records. -/
theorem exhausted_readiness_is_fatal (attempt : Nat → Outcome Nat) (fuel : Nat)
    (sel : TaskSelector) (g : MTState) (envOf : String → TaskEnv)
    (white_agent_url output_dir : String)
    (h : ∀ i, i < 30 → attemptSucceeds (attempt i) = false) :
    wait_agent_ready attempt 30 = false ∧
    ∃ msg, evaluate_tasks fuel sel g attempt envOf white_agent_url output_dir =
      .error msg := by
  have hw : wait_agent_ready attempt 30 = false :=
    waitReadyFrom_false attempt 30 0 (fun j hj => by simpa using h j hj)
  refine ⟨hw, ?_⟩
  rw [evaluate_tasks]
  cases hsel : sel.select_tasks fuel g with
  | none => exact ⟨"random.sample failed", by simp⟩
  | some p =>
    obtain ⟨tasks, g1⟩ := p
    cases himg : sel.get_task_images fuel g1 with
    | none => exact ⟨"random.sample failed", by simp [himg]⟩
    | some q =>
      obtain ⟨imgs, g2⟩ := q
      exact ⟨"White agent at " ++ white_agent_url ++ " is not ready", by simp [himg, hw]⟩

/-- Witness for C8: a subject whose readiness endpoint refuses every
connection. -/
theorem exhausted_readiness_is_fatal_witness :
    wait_agent_ready attemptRefused 30 = false ∧
    ∃ msg, evaluate_tasks 1 defaultSelector ⟨0, 0⟩ attemptRefused (fun _ => envAllOk)
      "http://localhost:9002" "/tmp/out" = .error msg :=
  exhausted_readiness_is_fatal attemptRefused 1 defaultSelector ⟨0, 0⟩ (fun _ => envAllOk)
    "http://localhost:9002" "/tmp/out" (by decide)

/-! ### Duplicate-freedom of catalog-resolved selections (C9) -/

theorem randbelowLoop_lt (n k : Nat) :
    ∀ (fuel : Nat) (g : MTState) (j : Nat) (g1 : MTState),
      randbelowLoop n k fuel g = some (j, g1) → j < n := by
  intro fuel
  induction fuel with
  | zero => intro g j g1 h; exact absurd h (by simp [randbelowLoop])
  | succ m ih =>
    intro g j g1 h
    rw [randbelowLoop] at h
    split at h
    · rw [Option.some.injEq, Prod.mk.injEq] at h
      rename_i hc
      omega
    · exact ih _ j g1 h

theorem randbelow_lt (fuel : Nat) (g : MTState) (n j : Nat) (g1 : MTState)
    (h : randbelow fuel g n = some (j, g1)) : j < n :=
  randbelowLoop_lt n (bitLength n) fuel g j g1 h

theorem take_set_comm {α : Type} (a : α) :
    ∀ (l : List α) (i t : Nat), (l.set i a).take t = (l.take t).set i a := by
  intro l
  induction l with
  | nil => intro i t; simp
  | cons x xs ih =>
    intro i t
    cases i with
    | zero => cases t <;> simp
    | succ m => cases t <;> simp [ih]

theorem nodup_getElem_ne {α : Type} (l : List α) (hnd : l.Nodup) (i j : Nat)
    (hi : i < l.length) (hj : j < l.length) (hij : i ≠ j) : l[i] ≠ l[j] := by
  intro he
  have hinj := List.nodup_iff_injective_get.mp hnd
  have heq : (⟨i, hi⟩ : Fin l.length) = ⟨j, hj⟩ :=
    hinj (by simpa [List.get_eq_getElem] using he)
  exact hij (congrArg Fin.val heq)

theorem nodup_set_of_not_mem {α : Type} {b : α} :
    ∀ (l : List α) (i : Nat), l.Nodup → b ∉ l → (l.set i b).Nodup := by
  intro l
  induction l with
  | nil => intro i _ _; simp
  | cons x xs ih =>
    intro i hnd hb
    rw [List.nodup_cons] at hnd
    cases i with
    | zero =>
      rw [List.set_cons_zero, List.nodup_cons]
      exact ⟨fun hmem => hb (List.mem_cons_of_mem x hmem), hnd.2⟩
    | succ m =>
      rw [List.set_cons_succ, List.nodup_cons]
      refine ⟨?_, ih m hnd.2 (fun hmem => hb (List.mem_cons_of_mem x hmem))⟩
      intro hmem
      rcases List.mem_or_eq_of_mem_set hmem with hx | hx
      · exact hnd.1 hx
      · exact hb (hx ▸ List.mem_cons_self x xs)

theorem getElem_not_mem_set {α : Type} (l : List α) (j : Nat) (b : α)
    (hnd : l.Nodup) (hj : j < l.length) (hne : l[j] ≠ b) : l[j] ∉ l.set j b := by
  intro hmem
  rw [List.mem_iff_getElem] at hmem
  obtain ⟨i, hi, hgi⟩ := hmem
  have hi' : i < l.length := by simpa using hi
  by_cases hij : j = i
  · rw [List.getElem_set, if_pos hij] at hgi
    exact hne hgi.symm
  · rw [List.getElem_set, if_neg hij] at hgi
    exact nodup_getElem_ne l hnd i j hi' hj (fun he => hij he.symm) hgi

theorem take_pred_append (pool : List String) (m : Nat) (hm : 1 ≤ m)
    (hml : m ≤ pool.length) :
    pool.take m = pool.take (m - 1) ++ [pool.getD (m - 1) ""] := by
  obtain ⟨n, rfl⟩ : ∃ n, m = n + 1 := ⟨m - 1, by omega⟩
  simp only [Nat.add_sub_cancel]
  have hnl : n < pool.length := by omega
  rw [List.take_succ, List.getElem?_eq_getElem hnl, List.getD_eq_getElem pool "" hnl]
  rfl

theorem poolSampleLoop_nodup (fuel : Nat) :
    ∀ (k : Nat) (pool : List String) (m : Nat) (g : MTState) (acc res : List String)
      (g2 : MTState),
      k ≤ m → m ≤ pool.length → (pool.take m).Nodup → acc.Nodup →
      (∀ x ∈ acc, x ∉ pool.take m) →
      poolSampleLoop fuel k pool m g acc = some (res, g2) → res.Nodup := by
  intro k
  induction k with
  | zero =>
    intro pool m g acc res g2 _ _ _ hacc _ h
    rw [poolSampleLoop, Option.some.injEq, Prod.mk.injEq] at h
    rw [← h.1]
    exact List.nodup_reverse.mpr hacc
  | succ kk ih =>
    intro pool m g acc res g2 hkm hml hpool hacc hdisj h
    rw [poolSampleLoop] at h
    cases hrb : randbelow fuel g m with
    | none => rw [hrb] at h; exact absurd h (by simp)
    | some p =>
      obtain ⟨j, g1⟩ := p
      rw [hrb] at h
      have hj : j < m := randbelow_lt fuel g m j g1 hrb
      have hjl : j < pool.length := by omega
      have hm1l : m - 1 < pool.length := by omega
      have hlen1 : (pool.take (m - 1)).length = m - 1 := by
        rw [List.length_take]; omega
      have hsplit := take_pred_append pool m (by omega) hml
      have hnd1 : (pool.take (m - 1)).Nodup ∧
          pool.getD (m - 1) "" ∉ pool.take (m - 1) := by
        rw [hsplit, List.nodup_append] at hpool
        exact ⟨hpool.1, fun hmem => hpool.2.2 hmem (List.mem_cons_self _ _)⟩
      have hpicked_mem : pool.getD j "" ∈ pool.take m := by
        rw [hsplit]
        by_cases hje : j = m - 1
        · rw [hje]
          exact List.mem_append_right _ (List.mem_cons_self _ _)
        · refine List.mem_append_left _ ?_
          rw [List.getD_eq_getElem pool "" hjl]
          have hjt : j < (pool.take (m - 1)).length := by omega
          have := List.getElem_take pool (j := m - 1) (i := j) (h := hjt)
          rw [← this]
          exact List.getElem_mem hjt
      have hcons_nodup : (pool.getD j "" :: acc).Nodup := by
        rw [List.nodup_cons]
        exact ⟨fun hmem => hdisj _ hmem hpicked_mem, hacc⟩
      have htake_eq : (pool.set j (pool.getD (m - 1) "")).take (m - 1) =
          (pool.take (m - 1)).set j (pool.getD (m - 1) "") :=
        take_set_comm _ pool j (m - 1)
      have hsub : ∀ x, x ∈ (pool.set j (pool.getD (m - 1) "")).take (m - 1) →
          x ∈ pool.take m := by
        intro x hx
        rw [htake_eq] at hx
        rcases List.mem_or_eq_of_mem_set hx with hx | hx
        · rw [hsplit]; exact List.mem_append_left _ hx
        · rw [hsplit, hx]; exact List.mem_append_right _ (List.mem_cons_self _ _)
      have hset_nodup : ((pool.set j (pool.getD (m - 1) "")).take (m - 1)).Nodup := by
        rw [htake_eq]
        exact nodup_set_of_not_mem _ j hnd1.1 hnd1.2
      have hpicked_notmem : pool.getD j "" ∉
          (pool.set j (pool.getD (m - 1) "")).take (m - 1) := by
        rw [htake_eq]
        by_cases hje : j = m - 1
        · rw [List.set_eq_of_length_le (by omega), hje]
          exact hnd1.2
        · have hjt : j < (pool.take (m - 1)).length := by omega
          have hjm : j < (pool.take m).length := by rw [List.length_take]; omega
          have hm1m : m - 1 < (pool.take m).length := by rw [List.length_take]; omega
          have hne0 : pool[j] ≠ pool[m - 1] := by
            have := nodup_getElem_ne (pool.take m) hpool j (m - 1) hjm hm1m hje
            rwa [List.getElem_take pool, List.getElem_take pool] at this
          have hgt : (pool.take (m - 1))[j] = pool.getD j "" := by
            rw [List.getElem_take pool, List.getD_eq_getElem pool "" hjl]
          have hne2 : (pool.take (m - 1))[j] ≠ pool.getD (m - 1) "" := by
            rw [hgt, List.getD_eq_getElem pool "" hjl,
              List.getD_eq_getElem pool "" hm1l]
            exact hne0
          have := getElem_not_mem_set (pool.take (m - 1)) j (pool.getD (m - 1) "")
            hnd1.1 hjt hne2
          rwa [hgt] at this
      exact ih (pool.set j (pool.getD (m - 1) "")) (m - 1) g1 (pool.getD j "" :: acc)
        res g2 (by omega) (by rw [List.length_set]; omega) hset_nodup hcons_nodup
        (by
          intro x hx
          rcases List.mem_cons.mp hx with hx | hx
          · rw [hx]; exact hpicked_notmem
          · intro hmem; exact hdisj x hx (hsub x hmem))
        h

theorem setSamplePick_spec (rejFuel n : Nat) (selected : List Nat) :
    ∀ (fuel : Nat) (g : MTState) (j : Nat) (g1 : MTState),
      setSamplePick rejFuel n selected fuel g = some (j, g1) →
      j < n ∧ j ∉ selected := by
  intro fuel
  induction fuel with
  | zero => intro g j g1 h; exact absurd h (by simp [setSamplePick])
  | succ m ih =>
    intro g j g1 h
    rw [setSamplePick] at h
    cases hrb : randbelow rejFuel g n with
    | none => rw [hrb] at h; exact absurd h (by simp)
    | some p =>
      obtain ⟨j0, g0⟩ := p
      rw [hrb] at h
      have h2 : (if selected.contains j0 = true then setSamplePick rejFuel n selected m g0
          else some (j0, g0)) = some (j, g1) := h
      by_cases hc : selected.contains j0
      · rw [if_pos hc] at h2
        exact ih g0 j g1 h2
      · rw [if_neg hc] at h2
        rw [Option.some.injEq, Prod.mk.injEq] at h2
        obtain ⟨h1, _⟩ := h2
        subst h1
        refine ⟨randbelow_lt rejFuel g n j0 g0 hrb, ?_⟩
        intro hmem
        exact hc (by simpa using hmem)

theorem setSampleLoop_nodup (fuel rejFuel n : Nat) :
    ∀ (k : Nat) (selected : List Nat) (g : MTState) (idxs : List Nat) (g2 : MTState),
      selected.Nodup → (∀ j ∈ selected, j < n) →
      setSampleLoop fuel rejFuel n k selected g = some (idxs, g2) →
      idxs.Nodup ∧ ∀ j ∈ idxs, j < n := by
  intro k
  induction k with
  | zero =>
    intro selected g idxs g2 hnd hlt h
    rw [setSampleLoop, Option.some.injEq, Prod.mk.injEq] at h
    rw [← h.1]
    exact ⟨List.nodup_reverse.mpr hnd, fun j hj => hlt j (List.mem_reverse.mp hj)⟩
  | succ kk ih =>
    intro selected g idxs g2 hnd hlt h
    rw [setSampleLoop] at h
    cases hpick : setSamplePick rejFuel n selected rejFuel g with
    | none => rw [hpick] at h; exact absurd h (by simp)
    | some p =>
      obtain ⟨j, g1⟩ := p
      rw [hpick] at h
      obtain ⟨hjn, hjsel⟩ := setSamplePick_spec rejFuel n selected rejFuel g j g1 hpick
      refine ih (j :: selected) g1 idxs g2 (List.nodup_cons.mpr ⟨hjsel, hnd⟩) ?_ h
      intro i hi
      rcases List.mem_cons.mp hi with hi | hi
      · omega
      · exact hlt i hi

theorem nodup_map_getD (pop : List String) (idxs : List Nat)
    (hpop : pop.Nodup) (hidx : idxs.Nodup) (hlt : ∀ j ∈ idxs, j < pop.length) :
    (idxs.map (fun j => pop.getD j "")).Nodup := by
  refine List.Nodup.map_on ?_ hidx
  intro i hi j hj heq
  have hi1 : i < pop.length := hlt i hi
  have hj1 : j < pop.length := hlt j hj
  rw [List.getD_eq_getElem pop "" hi1, List.getD_eq_getElem pop "" hj1] at heq
  by_contra hne
  exact nodup_getElem_ne pop hpop i j hi1 hj1 hne heq

theorem sample_nodup (fuel : Nat) (population : List String) (k : Int) (g : MTState)
    (res : List String) (g2 : MTState) (hpop : population.Nodup)
    (h : sample fuel population k g = some (res, g2)) : res.Nodup := by
  rw [sample] at h
  split at h
  · exact absurd h (by simp)
  · rename_i hk
    rw [not_not] at hk
    have h3 : (if population.length ≤
          21 + (if k.toNat > 5 then 4 ^ Nat.clog 4 (k.toNat * 3) else 0) then
        poolSampleLoop fuel k.toNat population population.length g []
      else
        match setSampleLoop fuel fuel population.length k.toNat [] g with
        | none => none
        | some (idxs, g1) =>
          some (List.map (fun j => population.getD j "") idxs, g1)) = some (res, g2) := h
    clear h
    by_cases hb : population.length ≤
        21 + (if k.toNat > 5 then 4 ^ Nat.clog 4 (k.toNat * 3) else 0)
    · rw [if_pos hb] at h3
      refine poolSampleLoop_nodup fuel k.toNat population population.length g [] res g2
        ?_ le_rfl ?_ List.nodup_nil (by simp) h3
      · omega
      · rw [List.take_length]
        exact hpop
    · rw [if_neg hb] at h3
      cases hset : setSampleLoop fuel fuel population.length k.toNat [] g with
      | none => rw [hset] at h3; exact absurd h3 (by simp)
      | some q =>
        obtain ⟨idxs, g1⟩ := q
        rw [hset] at h3
        have h4 : some (List.map (fun j => population.getD j "") idxs, g1) =
            some (res, g2) := h3
        rw [Option.some.injEq, Prod.mk.injEq] at h4
        obtain ⟨hidx, hnodup⟩ := setSampleLoop_nodup fuel fuel population.length k.toNat
          [] g idxs g1 List.nodup_nil (by simp) hset
        rw [← h4.1]
        exact nodup_map_getD population idxs hpop hidx hnodup

theorem TASK_SUBSETS_values_nodup : ∀ p ∈ TASK_SUBSETS, p.2.Nodup := by
  have h : TASK_SUBSETS.all (fun p => nodupb p.2) = true := by decide
  intro p hp
  exact nodupb_nodup p.2 (List.all_eq_true.mp h p hp)

theorem subsetsLookup_nodup (s : String) (l : List String)
    (h : subsetsLookup s = some l) : l.Nodup := by
  rw [subsetsLookup] at h
  cases hfind : TASK_SUBSETS.find? (fun p => p.1 == s) with
  | none => rw [hfind] at h; exact absurd h (by simp)
  | some p =>
    rw [hfind, Option.map_some'] at h
    rw [Option.some.injEq] at h
    exact h ▸ TASK_SUBSETS_values_nodup p (List.mem_of_find?_eq_some hfind)

theorem resolve_tasks_nodup (sel : TaskSelector)
    (h : optTruthyList sel.task_names = false) : sel.resolve_tasks.Nodup := by
  rw [TaskSelector.resolve_tasks, h]
  simp only [Bool.false_eq_true, if_false]
  split
  · rename_i hc
    rw [Bool.and_eq_true] at hc
    cases hlk : subsetsLookup (sel.subset.getD "") with
    | none => rw [hlk] at hc; simp at hc
    | some l => simpa using subsetsLookup_nodup _ l hlk
  · cases hlk : subsetsLookup "intermediate" with
    | none => simp
    | some l => simpa using subsetsLookup_nodup _ l hlk

/-! ### C9 -/

/-- C9: every selection produced by the catalog resolution path (a truthy
explicit task-name list is absent, so the candidates come from a named subset,
the default subset, or their seeded down-sampling) contains no duplicate task
identifiers: the subset tables are duplicate-free by construction, and
`random.sample` samples without replacement. -/
theorem catalog_selection_nodup (fuel : Nat) (sel : TaskSelector) (g : MTState)
    (tasks : List String) (g2 : MTState)
    (hnames : optTruthyList sel.task_names = false)
    (hsel : sel.select_tasks fuel g = some (tasks, g2)) : tasks.Nodup := by
  have hres := resolve_tasks_nodup sel hnames
  rw [TaskSelector.select_tasks] at hsel
  split at hsel
  · exact sample_nodup fuel sel.resolve_tasks (sel.max_tasks.getD 0) g tasks g2 hres hsel
  · rw [Option.some.injEq, Prod.mk.injEq] at hsel
    rw [← hsel.1]
    exact hres

/-- Witness for C9: the default resolution path (no explicit names, no subset,
no cap) yields the duplicate-free `"intermediate"` list. -/
theorem catalog_selection_nodup_witness :
    TaskSelector.select_tasks 1 defaultSelector ⟨0, 0⟩ =
      some (defaultSelector.resolve_tasks, ⟨0, 0⟩) ∧
    defaultSelector.resolve_tasks.Nodup :=
  ⟨by decide,
   catalog_selection_nodup 1 defaultSelector ⟨0, 0⟩ defaultSelector.resolve_tasks ⟨0, 0⟩
     (by decide) (by decide)⟩

/-! ### Reproducibility of seeded selection (C5)

`TaskSelector.__init__` seeds the process-global generator once; each
`select_tasks` call then consumes fresh generator output.  The seeding
pipeline is evaluated by the kernel in loop-sized chunks. -/

set_option maxRecDepth 100000 in
theorem init_genrand_19650218 : init_genrand 19650218 = mtStateA := by decide

set_option maxRecDepth 100000 in
theorem ibaStep1_seed42_half1 : (ibaStep1 [42])^[312] (mtStateA, 1, 0) = (mtStateA2, 313, 0) := by
  decide

set_option maxRecDepth 100000 in
theorem ibaStep1_seed42_half2 : (ibaStep1 [42])^[312] (mtStateA2, 313, 0) = (mtStateB, 2, 0) := by
  decide

theorem ibaStep1_seed42 : (ibaStep1 [42])^[624] (mtStateA, 1, 0) = (mtStateB, 2, 0) := by
  rw [show (624 : Nat) = 312 + 312 from rfl, Function.iterate_add_apply,
    ibaStep1_seed42_half1, ibaStep1_seed42_half2]

set_option maxRecDepth 100000 in
theorem ibaStep2_seed42 : ibaStep2^[623] (mtStateB, 2) = (mtStateC, 2) := by decide

theorem init_by_array_42 : init_by_array [42] = mtSet mtStateC 0 2147483648 := by
  show mtSet
      ((ibaStep2^[623]
        (((ibaStep1 [42])^[max 624 (List.length [42])] (init_genrand 19650218, 1, 0)).1,
         ((ibaStep1 [42])^[max 624 (List.length [42])] (init_genrand 19650218, 1, 0)).2.1)).1)
      0 2147483648 = mtSet mtStateC 0 2147483648
  rw [show max 624 (List.length [(42 : Nat)]) = 624 from rfl]
  simp only [init_genrand_19650218, ibaStep1_seed42]
  simp only [ibaStep2_seed42]

set_option maxRecDepth 100000 in
theorem seedState_42 : seedState 42 = ⟨mtSeed42, 624⟩ := by
  show MTState.mk (init_by_array (mtKey (Int.natAbs 42))) 624 = MTState.mk mtSeed42 624
  rw [(by decide : mtKey (Int.natAbs 42) = [42]), init_by_array_42]
  decide

/-! ### C5 -/

set_option maxRecDepth 100000 in
/-- C5 counterexample: the constructor seeds the global generator once, and
each `select_tasks` call advances it, so for the selector
`subset = "beginner"`, `max_tasks = 2`, `random_seed = 42` the first call
returns `["pm-send-hello-message", "finance-qualified-bill-ask-for-reimburse"]`
while the immediately following call (the one `get_task_images` performs
inside `evaluate_tasks`) returns
`["hr-check-attendance-one-day", "pm-send-hello-message"]`: selection is not a
pure function of catalog, request and seed, and `evaluate_tasks` pairs task
names with the images of a different sample. -/
theorem select_tasks_second_call_differs :
    ((c5Selector.select_tasks 100 (c5Selector.initRNG ⟨0, 0⟩)).bind fun p =>
        (c5Selector.select_tasks 100 p.2).map fun q => (p.1, q.1)) =
      some (["pm-send-hello-message", "finance-qualified-bill-ask-for-reimburse"],
        ["hr-check-attendance-one-day", "pm-send-hello-message"]) ∧
    (["pm-send-hello-message", "finance-qualified-bill-ask-for-reimburse"] : List String) ≠
      ["hr-check-attendance-one-day", "pm-send-hello-message"] := by
  constructor
  · have h0 : c5Selector.initRNG ⟨0, 0⟩ = ⟨mtSeed42, 624⟩ := seedState_42
    rw [h0]
    decide
  · decide
